import Mathlib

/-!
Verification development for the daily-progression engine of the
`kopalnia_wiedzy` learning app.

The definitions below are shallow embeddings of the Python sources:

* `core/missions.py` — `StreakState`, `update_streak`, `STREAK_MILESTONES`,
  `claim_streak_lootbox`;
* `core/app_helpers.py` — `_stable_shuffle`, `pick_daily_chunk`,
  `skill_update`, `add_xp`, `unlock_game`;
* `core/mc_state.py` — `mc_default`, `mc_migrate`;
* `pages/misje.py` — the correct-answer reward branch of the daily mission
  (the `q_rewarded` idempotence guard).

Machine-level details kept faithful to the source:

* calendar days are stored by the app as `"YYYY-MM-DD"` strings and compared
  through Python `date` arithmetic; here a day is a `Date` record and the
  difference in days is computed with the standard civil-calendar
  (proleptic Gregorian) day-numbering, which agrees with Python's
  `datetime.date` subtraction on all valid dates;
* Python `int` is `Int` (or `Nat` where the value is a count), with
  `% 2 ^ 32` taken explicitly where CPython masks to 32 bits;
* CPython's `random.Random` (Mersenne Twister seeded via `init_by_array`)
  and `hashlib.sha256` are embedded bit-exactly below, because
  `_stable_shuffle` derives its permutation from them;
* Python `set` values are `List`s mutated by membership-guarded insert;
  Python dict lookups with defaults become `Option`/`getD`.
-/

namespace KopalniaWiedzy

/-! ## Calendar days

The app stores days as `"YYYY-MM-DD"` strings; `update_streak` parses them
into `datetime.date` values and subtracts.  A `Date` is the parsed triple.
-/

structure Date where
  year : Nat
  month : Nat
  day : Nat
deriving DecidableEq, Repr

/-- Day number of a civil (proleptic Gregorian) date, shifted so that the
count is nonnegative for all years ≥ 1 (Hinnant's `days_from_civil`,
specialised to nonnegative years).  Differences of `toSerial` agree with
Python's `(date2 - date1).days`. -/
def Date.toSerial (dt : Date) : Nat :=
  let y := if dt.month ≤ 2 then dt.year - 1 else dt.year
  let era := y / 400
  let yoe := y % 400
  let mp := if dt.month > 2 then dt.month - 3 else dt.month + 9
  let doy := (153 * mp + 2) / 5 + dt.day - 1
  let doe := yoe * 365 + yoe / 4 - yoe / 100 + doy
  era * 146097 + doe

/-- Inverse of `Date.toSerial` (Hinnant's `civil_from_days`). -/
def Date.ofSerial (z : Nat) : Date :=
  let era := z / 146097
  let doe := z % 146097
  let yoe := (doe - doe / 1460 + doe / 36524 - doe / 146096) / 365
  let y := yoe + era * 400
  let doy := doe - (365 * yoe + yoe / 4 - yoe / 100)
  let mp := (5 * doy + 2) / 153
  let d := doy - (153 * mp + 2) / 5 + 1
  let m := if mp < 10 then mp + 3 else mp - 9
  ⟨if m ≤ 2 then y + 1 else y, m, d⟩

/-- `cur - timedelta(days=1)` followed by `strftime("%Y-%m-%d")`. -/
def Date.pred (dt : Date) : Date := Date.ofSerial (dt.toSerial - 1)

/-- Python `(cur - last).days`. -/
def dateDiff (cur last : Date) : Int :=
  (cur.toSerial : Int) - (last.toSerial : Int)

/-! ## Retention / streak engine (`core/missions.py`) -/

/-- `StreakState` dataclass of `core/missions.py`.  `freeze_used_days` is a
Python `set[str]` of day strings; it is embedded as a `List Date` whose
`set.add` is the membership-guarded `List.insert`. -/
structure StreakState where
  streak : Int
  last_day : Option Date
  freezes : Int
  freeze_used_days : List Date
deriving DecidableEq, Repr

/-- `update_streak` of `core/missions.py`.  Returns
`(new_state, event, gap_day)`; the event strings are exactly the Python
ones.  Python's `if not state.last_day` (None or empty) is `none`. -/
def update_streak (state : StreakState) (today : Date) :
    StreakState × String × Option Date :=
  if state.last_day = some today then (state, "same_day", none)
  else
    match state.last_day with
    | none =>
        (⟨1, some today, state.freezes, state.freeze_used_days⟩, "first", none)
    | some last =>
        let diff := dateDiff today last
        if diff = 1 then
          (⟨state.streak + 1, some today, state.freezes,
            state.freeze_used_days⟩, "continue", none)
        else if diff = 2 then
          let gap := today.pred
          if state.freezes > 0 ∧ gap ∉ state.freeze_used_days then
            (⟨state.streak + 1, some today, state.freezes - 1,
              state.freeze_used_days.insert gap⟩, "freeze", some gap)
          else
            (⟨1, some today, state.freezes, state.freeze_used_days⟩,
             "reset", none)
        else if diff > 2 then
          (⟨1, some today, state.freezes, state.freeze_used_days⟩,
           "reset", none)
        else
          (⟨max 1 state.streak, some today, state.freezes,
            state.freeze_used_days⟩, "same_day", none)

/-! ## SHA-256 (`hashlib.sha256`)

`_stable_shuffle` and the reward code hash strings with SHA-256 and use the
digest as an integer (`int(hexdigest, 16)`), so the hash is embedded
bit-exactly.  32-bit words are `Nat` values reduced mod `2 ^ 32`. -/

def w32 (n : Nat) : Nat := n % 4294967296

def rotr32 (n x : Nat) : Nat := w32 ((x >>> n) ||| (x <<< (32 - n)))

def shaK : List Nat :=
  [1116352408, 1899447441, 3049323471, 3921009573, 961987163,
   1508970993, 2453635748, 2870763221, 3624381080, 310598401,
   607225278, 1426881987, 1925078388, 2162078206, 2614888103,
   3248222580, 3835390401, 4022224774, 264347078, 604807628,
   770255983, 1249150122, 1555081692, 1996064986, 2554220882,
   2821834349, 2952996808, 3210313671, 3336571891, 3584528711,
   113926993, 338241895, 666307205, 773529912, 1294757372,
   1396182291, 1695183700, 1986661051, 2177026350, 2456956037,
   2730485921, 2820302411, 3259730800, 3345764771, 3516065817,
   3600352804, 4094571909, 275423344, 430227734, 506948616,
   659060556, 883997877, 958139571, 1322822218, 1537002063,
   1747873779, 1955562222, 2024104815, 2227730452, 2361852424,
   2428436474, 2756734187, 3204031479, 3329325298]

def shaH0 : List Nat :=
  [1779033703, 3144134277, 1013904242, 2773480762, 1359893119,
   2600822924, 528734635, 1541459225]

def smallSigma0 (x : Nat) : Nat := rotr32 7 x ^^^ rotr32 18 x ^^^ (x >>> 3)

def smallSigma1 (x : Nat) : Nat := rotr32 17 x ^^^ rotr32 19 x ^^^ (x >>> 10)

def bigSigma0 (x : Nat) : Nat := rotr32 2 x ^^^ rotr32 13 x ^^^ rotr32 22 x

def bigSigma1 (x : Nat) : Nat := rotr32 6 x ^^^ rotr32 11 x ^^^ rotr32 25 x

/-- Extend a 16-word block to the 64-word message schedule. -/
def shaExtend (w : List Nat) : Nat → List Nat
  | 0 => w
  | n + 1 =>
      shaExtend
        (w ++ [w32 (smallSigma1 (w.getD (w.length - 2) 0)
                    + w.getD (w.length - 7) 0
                    + smallSigma0 (w.getD (w.length - 15) 0)
                    + w.getD (w.length - 16) 0)]) n

/-- One round of the SHA-256 compression function. -/
def shaStep (s : Nat × Nat × Nat × Nat × Nat × Nat × Nat × Nat)
    (wk : Nat × Nat) : Nat × Nat × Nat × Nat × Nat × Nat × Nat × Nat :=
  let (a, b, c, d, e, f, g, h) := s
  let (wi, ki) := wk
  let t1 := w32 (h + bigSigma1 e + ((e &&& f) ^^^ ((4294967295 - e) &&& g))
                 + ki + wi)
  let t2 := w32 (bigSigma0 a + ((a &&& b) ^^^ (a &&& c) ^^^ (b &&& c)))
  (w32 (t1 + t2), a, b, c, w32 (d + t1), e, f, g)

/-- Compress one 16-word block into the running hash value. -/
def shaCompress (h : List Nat) (block : List Nat) : List Nat :=
  let w := shaExtend block 48
  let s0 := (h.getD 0 0, h.getD 1 0, h.getD 2 0, h.getD 3 0,
             h.getD 4 0, h.getD 5 0, h.getD 6 0, h.getD 7 0)
  let (a, b, c, d, e, f, g, hh) := (w.zip shaK).foldl shaStep s0
  [w32 (h.getD 0 0 + a), w32 (h.getD 1 0 + b), w32 (h.getD 2 0 + c),
   w32 (h.getD 3 0 + d), w32 (h.getD 4 0 + e), w32 (h.getD 5 0 + f),
   w32 (h.getD 6 0 + g), w32 (h.getD 7 0 + hh)]

/-- SHA-256 padding of a byte string (each byte `< 256`). -/
def shaPad (msg : List Nat) : List Nat :=
  let bitLen := 8 * msg.length
  let zeros := (119 - msg.length % 64) % 64
  msg ++ [128] ++ List.replicate zeros 0 ++
    [(bitLen >>> 56) % 256, (bitLen >>> 48) % 256, (bitLen >>> 40) % 256,
     (bitLen >>> 32) % 256, (bitLen >>> 24) % 256, (bitLen >>> 16) % 256,
     (bitLen >>> 8) % 256, bitLen % 256]

/-- Split the padded bytes into 16-word big-endian blocks. -/
def shaBlocks (padded : List Nat) : List (List Nat) :=
  (List.range (padded.length / 64)).map fun b =>
    (List.range 16).map fun j =>
      padded.getD (64 * b + 4 * j) 0 * 16777216
        + padded.getD (64 * b + 4 * j + 1) 0 * 65536
        + padded.getD (64 * b + 4 * j + 2) 0 * 256
        + padded.getD (64 * b + 4 * j + 3) 0

/-- The SHA-256 digest of a byte string, read as the big-endian integer
`int(hexdigest, 16)`. -/
def sha256Nat (msg : List Nat) : Nat :=
  ((shaBlocks (shaPad msg)).foldl shaCompress shaH0).foldl
    (fun acc h => acc * 4294967296 + h) 0

/-- UTF-8 bytes of a string; all strings hashed by this app are ASCII, where
UTF-8 is the identity on code points. -/
def strBytes (s : String) : List Nat := s.data.map Char.toNat

/-! ## CPython `random.Random` (MT19937)

`_stable_shuffle` builds `random.Random(seed_int)` and calls `.shuffle`,
so CPython's generator is embedded bit-exactly.  The 624-word state array
is packed into a single `Nat` with 32-bit little-endian limbs (`mtGet` /
`mtSet` are plain array read/write on that representation). -/

/-- Read 32-bit limb `i` of the packed state. -/
def mtGet (mt i : Nat) : Nat := (mt >>> (32 * i)) % 4294967296

/-- Write 32-bit limb `i` of the packed state. -/
def mtSet (mt i v : Nat) : Nat :=
  mt - (mtGet mt i <<< (32 * i)) + (v <<< (32 * i))

/-- Run `n` sequential steps of an indexed loop body, the direct image of a
Python `for i in range(i0, i0 + n)` loop. -/
def iterSteps (f : Nat → σ → σ) : Nat → Nat → σ → σ
  | _, 0, s => s
  | i, n + 1, s => iterSteps f (i + 1) n (f i s)

/-- Body of the `init_genrand` loop (`for i in range(1, 624)`). -/
def initGenrandStep (i : Nat) (mt : Nat) : Nat :=
  let prev := mtGet mt (i - 1)
  mtSet mt i (w32 (1812433253 * (prev ^^^ (prev >>> 30)) + i))

/-- `init_genrand` of MT19937 (as used by CPython's `random_seed`). -/
def init_genrand (s : Nat) : Nat :=
  iterSteps initGenrandStep 1 623 (w32 s)

/-- Body of the first mixing loop of `init_by_array`; the loop state is
`(mt, i, j)`. -/
def ibaStep1 (key : List Nat) (_ : Nat) (st : Nat × Nat × Nat) :
    Nat × Nat × Nat :=
  let (mt, i, j) := st
  let prev := mtGet mt (i - 1)
  let v := w32 ((mtGet mt i ^^^ ((prev ^^^ (prev >>> 30)) * 1664525))
                + key.getD j 0 + j)
  let mt := mtSet mt i v
  let i := i + 1
  let j := j + 1
  let (mt, i) := if i ≥ 624 then (mtSet mt 0 (mtGet mt 623), 1) else (mt, i)
  let j := if j ≥ key.length then 0 else j
  (mt, i, j)

/-- Body of the second mixing loop of `init_by_array`; the loop state is
`(mt, i)`.  CPython's `- i` under the 32-bit mask is `+ 2 ^ 32 - i`. -/
def ibaStep2 (_ : Nat) (st : Nat × Nat) : Nat × Nat :=
  let (mt, i) := st
  let prev := mtGet mt (i - 1)
  let v := w32 ((mtGet mt i ^^^ ((prev ^^^ (prev >>> 30)) * 1566083941))
                + 4294967296 - i)
  let mt := mtSet mt i v
  let i := i + 1
  let (mt, i) := if i ≥ 624 then (mtSet mt 0 (mtGet mt 623), 1) else (mt, i)
  (mt, i)

/-- `init_by_array` of MT19937: CPython seeds `random.Random(n)` with the
32-bit little-endian limbs of `n` as the key. -/
def init_by_array (key : List Nat) : Nat :=
  let s1 := iterSteps (ibaStep1 key) 0 (max 624 key.length)
    (init_genrand 19650218, 1, 0)
  let s2 := iterSteps ibaStep2 0 623 (s1.1, s1.2.1)
  mtSet s2.1 0 2147483648

/-- MT19937 generator state: packed word array plus output index. -/
structure MTState where
  mt : Nat
  mti : Nat
deriving Repr

/-- Little-endian 32-bit limbs of a natural number (fuelled structural
recursion; `fuel = n` always suffices since the argument at least halves). -/
def natLimbsAux : Nat → Nat → List Nat
  | _, 0 => []
  | n, fuel + 1 =>
      if n = 0 then [] else n % 4294967296 :: natLimbsAux (n / 4294967296) fuel

/-- Little-endian 32-bit limbs of a natural number. -/
def natLimbs (n : Nat) : List Nat := natLimbsAux n n

/-- `random.Random(seed)` for a nonnegative integer seed. -/
def mtInit (seed : Nat) : MTState :=
  ⟨init_by_array (if seed = 0 then [0] else natLimbs seed), 624⟩

/-- Body of the MT19937 "twist" loop (in-place regeneration step `i`). -/
def twistStep (i : Nat) (mt : Nat) : Nat :=
  let y := (mtGet mt i &&& 2147483648) ||| (mtGet mt ((i + 1) % 624) &&& 2147483647)
  mtSet mt i (mtGet mt ((i + 397) % 624) ^^^ (y >>> 1)
              ^^^ (if y % 2 = 1 then 2567483615 else 0))

/-- The MT19937 "twist": regenerate all 624 words in place. -/
def mtTwist (mt : Nat) : Nat := iterSteps twistStep 0 624 mt

/-- `genrand_uint32`: one tempered 32-bit output. -/
def genrand (g : MTState) : Nat × MTState :=
  let g := if g.mti ≥ 624 then MTState.mk (mtTwist g.mt) 0 else g
  let y := mtGet g.mt g.mti
  let y := y ^^^ (y >>> 11)
  let y := y ^^^ ((y <<< 7) &&& 2636928640)
  let y := y ^^^ ((y <<< 15) &&& 4022730752)
  let y := y ^^^ (y >>> 18)
  (y, ⟨g.mt, g.mti + 1⟩)

/-- `getrandbits(k)` for `1 ≤ k ≤ 32`. -/
def getrandbits (g : MTState) (k : Nat) : Nat × MTState :=
  let (y, g') := genrand g
  (y >>> (32 - k), g')

/-- Fuelled bit counting (`fuel = n` always suffices). -/
def bitLenAux : Nat → Nat → Nat
  | _, 0 => 0
  | n, fuel + 1 => if n = 0 then 0 else bitLenAux (n / 2) fuel + 1

/-- Python `int.bit_length`. -/
def pyBitLength (n : Nat) : Nat := bitLenAux n n

/-- Rejection loop of `Random._randbelow_with_getrandbits`.  The Python loop
is unbounded; it is given generous fuel here, and on fuel exhaustion falls
back to `0` (still `< n`), which no concrete trace in this development
reaches. -/
def randbelowLoop (n k : Nat) : MTState → Nat → Nat × MTState
  | g, 0 => (0, g)
  | g, fuel + 1 =>
      let (r, g') := getrandbits g k
      if r < n then (r, g') else randbelowLoop n k g' fuel

/-- `Random._randbelow(n)`. -/
def randbelow (g : MTState) (n : Nat) : Nat × MTState :=
  if n = 0 then (0, g) else randbelowLoop n (pyBitLength n) g 1000

/-- `x[i], x[j] = x[j], x[i]` on a list. -/
def listSwap (l : List α) (i j : Nat) : List α :=
  match l.get? i, l.get? j with
  | some a, some b => (l.set i b).set j a
  | _, _ => l

/-- The loop of `random.shuffle`: `for i in reversed(range(1, len(x)))`. -/
def shuffleLoop : MTState → List α → Nat → List α
  | _, xs, 0 => xs
  | g, xs, i + 1 =>
      let (j, g') := randbelow g (i + 2)
      shuffleLoop g' (listSwap xs (i + 1) j) i

/-- `random.Random.shuffle` (Fisher–Yates driven by `_randbelow`). -/
def pyShuffle (g : MTState) (xs : List α) : List α :=
  shuffleLoop g xs (xs.length - 1)

/-! ## Deterministic daily selector (`core/app_helpers.py`) -/

/-- The `seed_int` line of `_stable_shuffle`:
`int(hashlib.sha256(seed_text.encode()).hexdigest(), 16) % 10 ** 12`. -/
def seedInt (seed_text : String) : Nat :=
  sha256Nat (strBytes seed_text) % 1000000000000

/-- `_stable_shuffle` of `core/app_helpers.py`. -/
def stable_shuffle (arr : List α) (seed_text : String) : List α :=
  if arr.isEmpty then [] else pyShuffle (mtInit (seedInt seed_text)) arr

/-- `pick_daily_chunk` of `core/app_helpers.py`, with `day_idx` supplied
explicitly (the `day_idx=None` default reads the wall clock and is outside
this embedding).  Python's `%` on a positive modulus is `Int.emod`. -/
def pick_daily_chunk [Inhabited α] (items : List α) (k : Int) (day_idx : Int)
    (salt : String) : List α :=
  if items.isEmpty then []
  else
    let kc : Int := max 1 (min k (items.length : Int))
    let shuffled := stable_shuffle items (salt ++ "::day::" ++ toString day_idx)
    let start : Int := day_idx * kc % (shuffled.length : Int)
    (List.range kc.toNat).map fun i =>
      shuffled.getD ((start.toNat + i) % shuffled.length) default

/-! ### Concrete MT19937 states for the two daily seeds

The seeding pipeline is ~1900 sequential state updates, too deep for one
kernel reduction; the intermediate states after each seeding loop are
recorded as literals and the pipeline is replayed in two proved hops. -/

/-- `init_genrand 19650218`, the common base state of `init_by_array`. -/
def mtIG : Nat :=
  62685089405509111925910797243914719854890513935494713084094713797279779630627496305943786046941309007281293105221577504421353501605599255248785149356818580886163074212016138319710181437623915839386196989339984175865611290932895638485827512283879634622589907034847096838980553398268338905605705315464924834076955485269257682765843392777664062904318116756644819538761883164862381873685805923051342196114892111881287659915424456096361326051748180740843339721465950121631833352165428366344241754810081140762710579390137795215443629123183303201044796731629341661542390258966032612552126580439913324626563213547393121217728067632048719897064596438939163041106934301355643192260261867872030533878188557727018817797219012064641958276099544136480610826250078810896212505254064619595899307426216931651016613164877613570296351724055264357110051005104450572173606849938075379012356137114572525910752676385589168436483206759652170097284388598518122222819376116616668668677988651997615236221431416155794821321118852088948452164682783715959922435191327367306488124638818446090532334864386359317233873012285172875896330714873881780586230596002778688422250420590175698633544778262136505069053046737202152515000629854634631225453245996997340762744567896897683212149150732909707719966588817675821630380251456266588599804209831660991462715440400663143017564651072677052296295930367391822676512661642282350234567553218318066651318510488484545671729568971887621684270732981974442582657502555066960418690332945218280990034155505553171409775830458482159957769211244505225186771766058316021949327301666418107251589707938065072144733816368743637495699897181007119363672460040974223449086641663004605507793014252452324150238463715514559124307431648478948480649031081489229583165223570218974125422263886587593014744330199975749832650568652404661542746543584685860761547297457070273167102314576665676644281998277713093924236551494770138725647883566971887853912300960949802636372591951717316415323846182747445131420005722224687602711525724505110953736568981699982016588947035894059736087136235396798804019434387781559696138411966704777989194870090051835909943079457649936020314680876367897457337488804889342331824364904005266943816631681518612047693872607083945336048154993001716858914072302230374294986610531277637599664647525761147514008899238689946802093944865612982597431648203028809043429562401771290925843222821220221381984318518256971016750121270624021542153515130386081256853244444367484914891752438843250797295149886721543902585582757118492217204960123203770309672216674331373413106027454841661967870247822106376003696537006476355273043676224973894002060133928765135363584693312631060562155459381152426642778209514491263275588735458188352331628933634618912177576995916817414488324819680108333628484452298807271017999262374749573133359090629722111402666396222385680310709557844049479865847370371052888681758484468279513921172987571336140289500145715018352119752770038578015899178947425013401300127437407370742417936980607757405410607208376626705322894782663757703548808362869195819947150150865798288136994832911439410269353230208345410503242199606186650417333579047848825834242257112060317620885151293421378661990197161958015730358249113963865616811805417654957899792836277351433146683316643158745577273742588847277405020330699298979666450169324546781433015633218213248018986767013905101885085728066131985273947793365444250280947765884488609302913437528001802423347517836456663978922564542901160075954132077499502061844004777463229898312792357201472450520034421742281215395838957029567457078867297742321364249618062920323524100796395855490398720473188748064226082130624085325443879193454095100721902723688608983702297802922465778395428510531587340343771240068168890882622394112252370643121994567113348850616779414952571984309063927162547038575769391208822294299053225776973195785292510157058775147687493667385905281728614066936870793483631104130486096422866739022254251631022238998824784309871214211336594149372534724828516536519652291847191320934127662041939033266344757810255450761243406685982638804631309022215852991706323223872506356963395668107287976200691035733250165615782065576159415303394415966535152327550107294310945533761757937224536792146711105700674959937207778503501562879445241463662142281185819506210181780721218897488871995890898495582077564387715740371190275817001449471008660140255770382875594805433223352833476546594040372715841292252983175468170554585838014797017976570586587751089146553833551413146641975370517778330202052282190648141351908509904289169596729111939424597802445523234111653813513351586367960175769546506050051493655326103823629699245586418016468660736051425039803522537493270385743437525903109563398688573456345292160567787373069854610200635728800730405759403691875432721043746233636765094325962472698626875833148826372580999341547042531665331710768365982359935219565301595187067772247975847412037958098451506998773182171027695752045356894447709388159633645629545493246019135820915900506906032640701290570506299065346661219735445730896769091171352761432210047450382980030625592142825700677633624952217795344145832513082782540989616413040988227257601039794195623143595351637462190706636535912449334420058581521218743569834717812580171279915160794789675762903718339466089866492140118823551337811927493524761760551434001520245324751568861558716803095718510972066599595072196209156923318071322517301806566620458899402166430591631348363311478802800521980525250372511467674969151489645720009661369785217086930227581405674315978920044798755483144811069077253851302610194739624245401270682864202663540116818822475326676741780611737275972111438408802370422377608919256570335384654037352344114105999356653180812503717835632673409647782213628400383443178293619326757139369589058612122088577237252104060778375287897543799460272211546791798613974575310224299012205778134871255296492395729078221387894808011355820153110205338707003138385845672884757408327786763143168159295742358655797897448897721796416755370

set_option maxRecDepth 100000 in
lemma init_genrand_19650218 : init_genrand 19650218 = mtIG := by decide

/-- State after the first `init_by_array` mixing loop for the day-0
selector seed `630827641952`. -/
def mtA0 : Nat :=
  61873596452112666969679758400151617406018158147628598036491156151273171251770363339780655665219062060599393925222340330397714362369643080740348625540774330598681011037199215759753813399446064920410114643790680778598345352197225191301617871065891198880561338176043002736667755779742127938944197733985360963499269686391585921737748973360309132528260946787917776064467005471658570829559772197980526553580222185977903345573973202509042209606856544937636803536173316425720475476488966868950497318281251459679845792866499556217648097298829573272718671284403636457667268643853116738718597797612948551327396583566713512690704270324180466091119586870095074710344689536928918543605307176961362886724086745919406865269909231818710783694187654064238461834108433213443609239016064995017523316774602230185036971439122203270635545117717007667716480838464610655757907098408051837397398314700322033359390007780915261698103374149477074695943737207651785956410282265031926564529567123037964816927096068420876319523974386858768303243405425499563190649419669858756406323136852025857081233200721681713181777376780276235716416525649757901434228510905414633179909557880941497111379452692948091836651919707714249046874858716533081469823753227073379912336262242982369529616530357602818648341637141960418366586516677470424189916754694873679221054382244161234202053138867810619969320028787577823710313244976893165919367523950689653846068896665354251165386238239682730694891629846262495532579199703876571972483606461826065722523577942666726521424332060786201962582606043903037847284048385383628690355133135195520310213420969822119120083297839978759507302461095044681280281695974268942750766315529751491792122323455796622163389261456857407322374166521318534303886588686952175201071815287764132381371828142096713037774517780228270858160019768886351573674854551632215592384167755695386313392030435472229116134409499774557213259491578252335087993879618149055824182275003714965872221786225192816159326819504772334843639455705787858292440152655884194300380180290783690799313898717639494911164050315562432952749474470135269963006735644076554144001539236595588046561184176184118987932011578825205669078890911630680059844903825236289643452771080056892466136289379859695768727731493557909017516237473904088824118403020871164201774912230934429668769463363153140933829669839716596199179228974725754010311234404971971166025968095070937791484000749538377978835240149936264032072387343864938158402607580436991410675483125351622827077458722687552501665894084833125762367472183867599163937987216574172544852280025024208688315798111703661893214835861891131257083119975393751903414386560048999365250512887434960572598032931100269571808070873678760910067620313892208523011606263850180756279617100514558009621134151053462789118800809877088105881336135803759933575662212201734209152893635501983599259884841929652621637759028107236543830361388431774391857719762962311612177231197506169887573152967705240967242178455618700079193415770129666025548007598322283304283177010197264886482657848534515461985946637470551723510155547389162601725745473334722596259635006765976957564566051129661124891898132892877742353189966390326186249092112465242643663583238156698573183781260559197850472814911112627400991873706904107958953875177917523378407147358111299877524747776336689577739922733853863181321884618750077716366831338071117513427796884990758721154411139892383361562898441775617400069151622822933887150634798811054433017219110123990894126511809046587968918021342725658366296526696256287855466298667396737205586738245797919733552998079444752523848806343718656242543924616614966286500044519916949718703204673936950980241277558529141214473334315452818462055843618550576461716406292297279991315290184150242168258579188786382732962797423529184432942336066562511998524280304735601267642882305958642529674777165708655404906397488637361761511477308640345116263905519370032179268948419173310480322061787512494443786421562726055729019245074843069093263587002239390458822492146946628494578950494729520181128844599527113539645346348365030113478442841263786697829971809958855158674427167791957519747858829942462201127531334112578772909267670945956198518230384644261611863089502492613639904569317072221969094070424702580806490832306674726889843689076489071357765300736562950539866605690864571979978399272569338943778677497141221398490061719992226090714505002335115972815402285161408602587776112105016534053298878528168081434024009270470184163367741673072340891701240028343855395989187312661283652534826233860392270774392028200421892125923758802124522971941978776226517079474438654733579074311276565754900507661635994534808748335059186776746696133218926672400804182124141646051449265485507926348511795289821789050822729129909260274930778987541857477797424914464150963104601417758699318479889932457304529341250993358434145057838645619617194761395444153937035639361319197050473940177205157973525766182744834579509416468132336419010842645060195700083130939732598519727426453696862759319511806687644356195428185032167560888504983225425536574972325038770991706360764082332267447824105693802127130256657913654946512842267756683011971587601223940542808516470898920047561270568670012748134959596029860663206204755074228628529497082349407295084066227664764340994591837708425331836384190682149057282446596755811352981153644054802983307772410381821265182301385544741241587343960583165733765085061763594398901703361367497964914933068590259714423199424062604333588913857397366806560770810857840859736858237094793600236297383857924877600640341915198829484897618705924741770122365880452413008322715764432979192449165702652525648448452136874625346301344035665251783566030168472717376762418544368626446752611191527409878346527225636165388543051434002956354689073891372439953775458968704851528695801748479771980424048100459370932965362513330517235217054801810612349852014782581515752263906206443731034455823795304271315461309706343813285353989667540624380903156571010595431328504839677422838711715589101

/-- State after the second `init_by_array` mixing loop for the day-0
selector seed. -/
def mtB0 : Nat :=
  2230424400154442160619510803254272070667473812005991799774037651673810988620605792197053842811341084156497608815125344216021413734346212592037699352416332581108496394277875608470389355832427420260969339381115429753614826892309474176151312978925902916492176379173972628807759019319193345224358550929330175940835617126887616980747674625534938221769100215117163408152585216415984247902221835459270581628283175908262845865375561279026705376474712529871108768090479410630425032448598881557687495435273204822633821747164972658365807224740040831944002279994694467966909017346056279550897019766320802491733147315072641978737353999940084651806057933979399139792140645505668789289961443820421150198548230822144638662408828278308211229150618805099320535526855844962534347377120672051997087949399571421626320890972816781401984746507824553216707433163382460746469010914255907643738654992712497390842439430889238497112084831046142299260359401021649603029221084382436149405462301553878924316856984705490214607126705947677834915396374722710413883068687538403210311484110809362507225198473139301606196878851922691843819676972289685686375340150631308951717925171620612394538790866417068488862248883880010575215414010152585311535765007322263699041538514584175861293294695661472919541855473514433086966077559414519605025305514389416221000184396866987439859115476671654818468249185965645337109203365622383599215164979668751264501904578788619979050696192601998619219613224281821963627915835842733109268841253844722656805240147984911513807617434650643924206187480418897748243878642767343294826037178641967649319494506937535494170980244605729701832599423913711631851861168853120499439305106989954853532497977271356418482686202941270686863256305099118869403006964824253844247725306334252806484989707419529461047489324698950973121472386049742438611729601335713910180683564918560994858558216018824861351993457957093951619161520762688352130888768698910968929819992983273796926556449596882959037624736617432305769502333142267664529185186086613633431282179546831065789242398430387655273083031509395974638041733635710913782546301457205284751632949632711161360952051097938220446087596676823681540611986667542613205150582162049265627641685567794788821839385084818247092173349623623170099420531237364821965064404773759535188957061074424078360748508546135088539682310473652907165714399037968766742762171494013792258159389216672959622492079739395516029708304938231268912987600046286303733415540472834799977535790548772731797485798278986905086961840392797892852725917657620602362936497610025627179708076349959621510072871527818453821848163673253082840490257167410852883828015133884905414531054807108973450279511152053053225693077012536644585814104913158205135870019419200364310710483806336123552737925413277907276656750594243459683809675222318409352928686541430731171011956155546227024736341584494884932579087406800127603471390333931492856394246252504861457954904981985610688620348909099438965183473440685602907471353436041794550441012602562619771442823883144866415229084184646908376856384162740701837337766600276174053975191841678181779393461785738320302184002012030368803471118682052435401977037851866382963358765051859361993307645124119026953251103926958436483671505847047216723849430507044058139690063049417055318143237934336875543919783032598107501163064050837100528205765162829066840302601453131071116482049373913509024508369509480459670405182378431022634111325065453669907894747081156257489354187531330337763738555635734261508413542121508516339630941129441475856222420430781635145360959922816920284551571162991473576496073790938215296101857196778226075517531588348520718553383896992771311621123241792411832561348505039726351339549753304603425094901024109028473902378748334750775816515718833741520554702650896713859242497030339286290340322705120937280545212926864989874347299635315819177006705233047910276737128725721454373995736368842440200271025044405941731570145934118436257806354293726359575797673346359623702737133836975383185462886509178888141319174229352115667519149656276656644694852893867360847142503718996567656248666021034901523146549633937430668466586522845278289210839020670905532608543983369560889860369002000046601901363136157253818057416796188359669942979709042950833770272367729944330312727461617310536131233974384563008180288256003264816528896464469337545283497916843288558764473902599844661648987594672735912272413976133194420196568383817640311726060849972631973454635447460820185810416391754160731492166177864341626958162581839189164008890594807057351141795101383057050785474327044047871196740266483000554849203232541600888211142452892545865878354128392474117454627512248333035259351034757271313286008975127266823096691573019216116830231025181206113247065155996572354616784284621447567948324215017827633230010656658629916828134361440764603801549925507463047711906991975438329179765059790048426457643053081019437527937584748604868057023106636612435248777070023128848014096253223787109806531876259742294713365452879873459919150876467749243816654539441159348896680284249282024065499405607821920877695775257597406612906445245839522633492892174794340932034587671720462758001018668648973512653509658980614696968042038219114247005033070544500070035987014536398759300953369071977891610188934978007263053101450385747391536737520826911916090538560728007867952478944400647135175264797950010512835445985690060605408404140905980653499030244899738924319623301270595034983562627895049013621113981241199949281013313681081514471045279602669351743021278909612817248767483455355717127020708315593974131036775043648630927646688900117061629600822779850738320035732924815044949914864192573952203474701604567892459352436658952148249590627898425633002024982444380043253098493089970935239699714287425921102391262760585032557854544184773136838392105619418693884953998887550099725598595226138561692563644841822802746366391895969583616290493303189244776002613806027792976130812888937714344330264923821770218673664537865986696790780380164565448084617

/-- Fully seeded MT19937 word array for the day-%(tag)s selector seed. -/
def mtM0 : Nat :=
  2230424400154442160619510803254272070667473812005991799774037651673810988620605792197053842811341084156497608815125344216021413734346212592037699352416332581108496394277875608470389355832427420260969339381115429753614826892309474176151312978925902916492176379173972628807759019319193345224358550929330175940835617126887616980747674625534938221769100215117163408152585216415984247902221835459270581628283175908262845865375561279026705376474712529871108768090479410630425032448598881557687495435273204822633821747164972658365807224740040831944002279994694467966909017346056279550897019766320802491733147315072641978737353999940084651806057933979399139792140645505668789289961443820421150198548230822144638662408828278308211229150618805099320535526855844962534347377120672051997087949399571421626320890972816781401984746507824553216707433163382460746469010914255907643738654992712497390842439430889238497112084831046142299260359401021649603029221084382436149405462301553878924316856984705490214607126705947677834915396374722710413883068687538403210311484110809362507225198473139301606196878851922691843819676972289685686375340150631308951717925171620612394538790866417068488862248883880010575215414010152585311535765007322263699041538514584175861293294695661472919541855473514433086966077559414519605025305514389416221000184396866987439859115476671654818468249185965645337109203365622383599215164979668751264501904578788619979050696192601998619219613224281821963627915835842733109268841253844722656805240147984911513807617434650643924206187480418897748243878642767343294826037178641967649319494506937535494170980244605729701832599423913711631851861168853120499439305106989954853532497977271356418482686202941270686863256305099118869403006964824253844247725306334252806484989707419529461047489324698950973121472386049742438611729601335713910180683564918560994858558216018824861351993457957093951619161520762688352130888768698910968929819992983273796926556449596882959037624736617432305769502333142267664529185186086613633431282179546831065789242398430387655273083031509395974638041733635710913782546301457205284751632949632711161360952051097938220446087596676823681540611986667542613205150582162049265627641685567794788821839385084818247092173349623623170099420531237364821965064404773759535188957061074424078360748508546135088539682310473652907165714399037968766742762171494013792258159389216672959622492079739395516029708304938231268912987600046286303733415540472834799977535790548772731797485798278986905086961840392797892852725917657620602362936497610025627179708076349959621510072871527818453821848163673253082840490257167410852883828015133884905414531054807108973450279511152053053225693077012536644585814104913158205135870019419200364310710483806336123552737925413277907276656750594243459683809675222318409352928686541430731171011956155546227024736341584494884932579087406800127603471390333931492856394246252504861457954904981985610688620348909099438965183473440685602907471353436041794550441012602562619771442823883144866415229084184646908376856384162740701837337766600276174053975191841678181779393461785738320302184002012030368803471118682052435401977037851866382963358765051859361993307645124119026953251103926958436483671505847047216723849430507044058139690063049417055318143237934336875543919783032598107501163064050837100528205765162829066840302601453131071116482049373913509024508369509480459670405182378431022634111325065453669907894747081156257489354187531330337763738555635734261508413542121508516339630941129441475856222420430781635145360959922816920284551571162991473576496073790938215296101857196778226075517531588348520718553383896992771311621123241792411832561348505039726351339549753304603425094901024109028473902378748334750775816515718833741520554702650896713859242497030339286290340322705120937280545212926864989874347299635315819177006705233047910276737128725721454373995736368842440200271025044405941731570145934118436257806354293726359575797673346359623702737133836975383185462886509178888141319174229352115667519149656276656644694852893867360847142503718996567656248666021034901523146549633937430668466586522845278289210839020670905532608543983369560889860369002000046601901363136157253818057416796188359669942979709042950833770272367729944330312727461617310536131233974384563008180288256003264816528896464469337545283497916843288558764473902599844661648987594672735912272413976133194420196568383817640311726060849972631973454635447460820185810416391754160731492166177864341626958162581839189164008890594807057351141795101383057050785474327044047871196740266483000554849203232541600888211142452892545865878354128392474117454627512248333035259351034757271313286008975127266823096691573019216116830231025181206113247065155996572354616784284621447567948324215017827633230010656658629916828134361440764603801549925507463047711906991975438329179765059790048426457643053081019437527937584748604868057023106636612435248777070023128848014096253223787109806531876259742294713365452879873459919150876467749243816654539441159348896680284249282024065499405607821920877695775257597406612906445245839522633492892174794340932034587671720462758001018668648973512653509658980614696968042038219114247005033070544500070035987014536398759300953369071977891610188934978007263053101450385747391536737520826911916090538560728007867952478944400647135175264797950010512835445985690060605408404140905980653499030244899738924319623301270595034983562627895049013621113981241199949281013313681081514471045279602669351743021278909612817248767483455355717127020708315593974131036775043648630927646688900117061629600822779850738320035732924815044949914864192573952203474701604567892459352436658952148249590627898425633002024982444380043253098493089970935239699714287425921102391262760585032557854544184773136838392105619418693884953998887550099725598595226138561692563644841822802746366391895969583616290493303189244776002613806027792976130812888937714344330264923821770218673664537865986696790780380164567492198400

set_option maxRecDepth 100000 in
lemma seed0_loop1 :
    iterSteps (ibaStep1 [3762416736, 146]) 0 624 (mtIG, 1, 0)
      = (mtA0, 2, 0) := by decide

set_option maxRecDepth 100000 in
lemma seed0_loop2 :
    iterSteps ibaStep2 0 623 (mtA0, 2) = (mtB0, 2) := by decide

/-- State after the first `init_by_array` mixing loop for the day-1
selector seed `757331494638`. -/
def mtA1 : Nat :=
  41270911834084813594414630001564011629787996878589501284840516911782311510615284521430950709526137140269189098570982228741257675000337355336941933366397708208952348147167893161043873767104445379917375005999517398993872327464710974553562102508472373602102180003402048218276704138997354169905296806036953857392392908747793558546471261155349503942283667072386149580236643570467082137532265397209037581826519248122090511218285377116369349909974031091730436983100464235358855694601920372444602968513301623026168019489669655343123046359681677320725124330418783134485394604138079133249097118905121007594021370654787459142687087039803082641333837890992828309501982446383797861542403600794642537031666378991227577552045316787617130716775819486940233437931499262956675899128956488039197774809085300375151208385992177966790246911248017455890427028007770627208256805047566276094913388368126590693027328863885475707191773311172761588573143660683247745383662347671418009194718575328502594870096680476209776838766384919732050363955233118044740962635789805132505255224117524465759748165895656236638063534416069425467757019403352040911206491433098860729352823007064829230142056420353588762167173758079304849226494676898320516226436717933229997003377756827160737655512313848579368802606042714073969510242836359392540821759891166896537711162944172350193534302933432334165388759120519280518097055516394124042456937702017445160882301876354314147812799688325739728844776329737007429388354290205508768621065296051501059095900491442893590105796305602908557005183599283727359994058158292867180026801506195586803462329444182360017480866529223734578945766074106990277399480207631050585937711563040769488823790920127367182703397336462636574150332931115586469892960480527022857758416442717634133236901169603789935407793712659014871694530184969594516763905955413092514731383852331228239339583828041396663220814628107905845307398224263353248296687171757502648392821725127788546722037248262012317916098498484076980203907445909525607287982030666630954209788566546653604031141477886657972200612220126209855946064845332209950395970283707820943757603405967742914706790829332630029834709683086832294745819502303842624977066810892330899600292925035272231668857892238079323955154488008581999488949840473725893832949194706628613876990781056073732387445059547313919504669440720701949555537748932299221443414992848336901888897882008916371710722797204073910048166441383235122887354038294699813747490371630961349892993966033430173312928179237212527761832562784007086210638284908366186324642922747189540421340418981532884841735185197466599055115942997446669540454479953720505187821210221195584223405275207332129929014237484320110050096870100920872343365695337109648587743785259014506726649937118837108423933405830524211211882147138423292387182222730452739646384414467555438605381051138675352490609185029050131514782503221413518731720086423948503165469827577210297271705215921281401847689937291882355079913768742918558396763204267217020798525154399869112818518949298217406050579721310271704213731405163126004195347227956076474981589258364623584547576791173028942017079444595045868271985300927291619760145495706455388074428724381264682075591947012269941875751831660422340548230014297529243954092206537435224583564159953573860171794221186394430269730732597067088613432212786133860185746956224534241309366829970176921414784257445861687125120782396625754375544618357918429906672987481028476318449930599904065465425239661762513611733661857711738538449609040203820232767147110672935873683614141277070440916225702223453567438946562854034672773276072631072586936957906330100585715236432230824249781941029715137609380751100775092222493231880737101603690889147482544241531857830300812818106974056339343145404152086198100003630344905569359434984780647016956394744548891358913725843001468511863023344056546233274471446775876023058805858938070370401277496696915531554887185816333917920157674113429275437080086758574884028863004661448773928041007222913005302149971558302776947291263429270182945188980464479640557624711712492012725642427759794450617568839358736464100837451791844814388427362374065664725554829062350352295077478538586930473536131437516934680622878012191415477678058969311045480185968535892364653713809985466267408595855338388048829343109222077229934085990239291770275774071838009606712573063251811394499830093253394517787092470457253159333900005097372856389779113015327974620967325165518495256601768810031313001458935354713860070503331298370667627594366248029744970339910978056701031951863015638467886273601218607520542026297718769931179792184426624651192067695897186872928775673456581565710098180530015422852936929747342535800561426040485878223290621852037136954517493907298260539014013986699469279337404674416747994547562234835808831436489125518517671708403503232283291164346044422679052920182548069431473016761085292579320711719813260165313417374892904590942282130985449374851635507805613321783722847752359092053213784088853288886670760581672538530609565653637388914871857158814722449824694919161857701304436264245635052368621271867557402536455131574921200983403502545734038049702630200632311078919902129261203907016944375469705477222567597197491345840088618133742492828529512855192990840935651830351448536373749902729810618667016372074859254664087120492522434802828294279291737032324723437717794982429374780712432074008353995445341464781296324810382252260166058978263821609970470559364257780387228945042212563465452658359712987705078605851654385726724760243188191327047169524165638481460505940709794046125152876315236067709917328933618524959289686720688247847501776652107160056588023243617180704035876835833986805087932261426304098264867011728037743077970249055428089787529412063098586543614401526440712677043721420917716559762509273827377400736133557541189923973351766468674636913320552421017826106449789340273389809786701524345112990096011844109459099150281288068290711443817684578169841125417518743323654122094473425847107838790695136280361377577767

/-- State after the second `init_by_array` mixing loop for the day-1
selector seed. -/
def mtB1 : Nat :=
  67903354060902530617611479175197107609185297820199564221587974076572200502355092580954197376960010522388673443197490655513275784197960528302630000153604784402412902370775825474846806269361789890241503595717973145565979183042079130418495715247659894814945628920738913175691661149573845366743867722567128253437980810890140567814230581206878100154151305448661985544806862601470092057689717226334374108221242142374718927642571183849567672754258912181086313336811460472722276383315236414028699098777742353463983847159923566239674362992712454889007082428881292184310519976278956310253894324476131333972333922812404459835332491795383768910844486066770988522405050184682907861077895612679830235267928444238817365280157044393307820046954128671063918541161449246110894649261311307347993010806322193704067390595384014059543507953122054323516117273133069690518591240636562744225004001591302706527114763600342549323950064299322251977137449630298812996211296860726702774501174717636652793492457317344228541065685699883568830342436255783243043304653200174468706937679710886317074124353680974290947900873228963667374232098477837988620846148090878236455141287851548010991963638575116724202856171767322892556959260894497437000371298232981322006922849099543656983433892093701348747474262802871334194168572503911426469836076157603763399514662414396989703467287020775165101873960919760706014543730521755858138709570409360506030537399427591112563869432401928565921751578929572993194969384785272921978669387098165574426629805216605795632142065404715626295788549386991177762529969559555958267050249216027449275439861085632731777174642199671021929377469938217712207459981488372089677834529768786431302138992876468496585343708770134703368460384604169645306638508668272737331586355588493566804949601405119213357278622904701077319023451264165065542901769723301950794228254303426836996652634678022266379049874968121229668913553780678906994462171992344305564932179381762677818905820935698171032175893719413347436592513474258555305568219255240982711965749349650744407644519175568279823749820262700598992087067877811978362564971955075115082571452516458198474034376997205470244773439040878397161642678886554681794404191990965161829094927644783108104190246264608150982443083960311164925465373239438819726127411400843337367071070707786906622894229516141567920274064680166113065063285674987584182925746400253289267772905323958573968826731229633148309613069314409224144357412567939231196100538224429153600061513576042740289850628783926896376005668327811771202015644923291728596879487929966625785296060191980559592237876084491169789039942795594560321568606027382081630106405127639084452941698545033344833828261400493894930994064678695112356376510845950190256003686318166067471854327024152330506409449960319267556855803494526772225385235492273497072141622513790757278859508022197717498885842608433536285216347118166009445054110465491976002226641075460524998334317264056936422339535274781406318725917404235546458868821398481992969317179979491965412057584724939199575427830474802858253400122918543145296375099567140914445873029698130417332893272100016502883314230216674722441348687236857040610043573217688496506912766248019251793005282844379887332656761290037205457864683213683964128580745552635711715900701890816649948783082072712520068654947989642266870247443080770197213530975042790387044969093464754534930094965639659046110284290346522462258946843366816452636967116288259918047359547545979512785045299998211395019911099982868109508823159468724586001406612542008113907500529441976519550475852187307701474319913712897938938897589452967738389186535941439312569742208076932925663638339010277326975936287568088730872680083399667654308458979424998623243882839809525030532499896550550541261228115668710368401199339077560450420019120248513053141118342031696192278329474282301585686471413923011245052566283752931481920102038422027749546632117323995629935430946465671860956771551832973806825166887272177731714098161862786115653406030275267705662678520918904897741093454403888813320951782584608626183909651980669026956482628909072127967347040952653756740990734802548354502596689411449029884800317570753708633440094011574617305894488060162531736007375919423126484109893146140888861026163517636174269208721644834643943349377518943965262126305630345347393109560609307618919979349579447759015071789655662691659694418519800433642319721053847478413364507095156906792753268560599086169322870484386231622034184089985762792355390746335981138512431758491196385589739669402523344721849582412618230916547812236452359768784820486349836682403890087599903354532767450723199600293579431155951177142239744742569968992144415170580660312453405704804030946985036020396024811462726325554725885953345292453780448172484153615905293146099987673713021606228341763289948010904172072510417174624365642304415979834962878781518045415409171634593542357781556690613794313633819060148423089631595827187830497498351250521982310472395396760933791004309201107664820482933832786462606148500878533996647738249774549443041575427957903125836961916385380513697209325646727981103716894673069773744654104269068834840570059197055680868966509437036847429859133355316609542763679517304530701609343561871007850440562548839769752589492013263493391026729552624151349788443357121172602836206443454702109474921881688424624764081397255406836437562827744655592245525442035077867705651641912933579642571790759638898893814741878582934196169667790203976186408936584658534665433961010798488855039280548175902306200493484030370175378496395172047239086174657363096779798957662474203264277189619847843426169831693258821522623183696364363404282795731611894391334247203349887220233999653657194756396340572861223220868261417778655341522423456625450992983048062569334058190985114789091144828930272074452514579414115802988845506078912082669266204599919753154721057598535538966311924320094350038709730160702917708425143174116713814891428753285423861269209886877950763309661254521328837990836317190463199123425628392699167482

/-- Fully seeded MT19937 word array for the day-%(tag)s selector seed. -/
def mtM1 : Nat :=
  67903354060902530617611479175197107609185297820199564221587974076572200502355092580954197376960010522388673443197490655513275784197960528302630000153604784402412902370775825474846806269361789890241503595717973145565979183042079130418495715247659894814945628920738913175691661149573845366743867722567128253437980810890140567814230581206878100154151305448661985544806862601470092057689717226334374108221242142374718927642571183849567672754258912181086313336811460472722276383315236414028699098777742353463983847159923566239674362992712454889007082428881292184310519976278956310253894324476131333972333922812404459835332491795383768910844486066770988522405050184682907861077895612679830235267928444238817365280157044393307820046954128671063918541161449246110894649261311307347993010806322193704067390595384014059543507953122054323516117273133069690518591240636562744225004001591302706527114763600342549323950064299322251977137449630298812996211296860726702774501174717636652793492457317344228541065685699883568830342436255783243043304653200174468706937679710886317074124353680974290947900873228963667374232098477837988620846148090878236455141287851548010991963638575116724202856171767322892556959260894497437000371298232981322006922849099543656983433892093701348747474262802871334194168572503911426469836076157603763399514662414396989703467287020775165101873960919760706014543730521755858138709570409360506030537399427591112563869432401928565921751578929572993194969384785272921978669387098165574426629805216605795632142065404715626295788549386991177762529969559555958267050249216027449275439861085632731777174642199671021929377469938217712207459981488372089677834529768786431302138992876468496585343708770134703368460384604169645306638508668272737331586355588493566804949601405119213357278622904701077319023451264165065542901769723301950794228254303426836996652634678022266379049874968121229668913553780678906994462171992344305564932179381762677818905820935698171032175893719413347436592513474258555305568219255240982711965749349650744407644519175568279823749820262700598992087067877811978362564971955075115082571452516458198474034376997205470244773439040878397161642678886554681794404191990965161829094927644783108104190246264608150982443083960311164925465373239438819726127411400843337367071070707786906622894229516141567920274064680166113065063285674987584182925746400253289267772905323958573968826731229633148309613069314409224144357412567939231196100538224429153600061513576042740289850628783926896376005668327811771202015644923291728596879487929966625785296060191980559592237876084491169789039942795594560321568606027382081630106405127639084452941698545033344833828261400493894930994064678695112356376510845950190256003686318166067471854327024152330506409449960319267556855803494526772225385235492273497072141622513790757278859508022197717498885842608433536285216347118166009445054110465491976002226641075460524998334317264056936422339535274781406318725917404235546458868821398481992969317179979491965412057584724939199575427830474802858253400122918543145296375099567140914445873029698130417332893272100016502883314230216674722441348687236857040610043573217688496506912766248019251793005282844379887332656761290037205457864683213683964128580745552635711715900701890816649948783082072712520068654947989642266870247443080770197213530975042790387044969093464754534930094965639659046110284290346522462258946843366816452636967116288259918047359547545979512785045299998211395019911099982868109508823159468724586001406612542008113907500529441976519550475852187307701474319913712897938938897589452967738389186535941439312569742208076932925663638339010277326975936287568088730872680083399667654308458979424998623243882839809525030532499896550550541261228115668710368401199339077560450420019120248513053141118342031696192278329474282301585686471413923011245052566283752931481920102038422027749546632117323995629935430946465671860956771551832973806825166887272177731714098161862786115653406030275267705662678520918904897741093454403888813320951782584608626183909651980669026956482628909072127967347040952653756740990734802548354502596689411449029884800317570753708633440094011574617305894488060162531736007375919423126484109893146140888861026163517636174269208721644834643943349377518943965262126305630345347393109560609307618919979349579447759015071789655662691659694418519800433642319721053847478413364507095156906792753268560599086169322870484386231622034184089985762792355390746335981138512431758491196385589739669402523344721849582412618230916547812236452359768784820486349836682403890087599903354532767450723199600293579431155951177142239744742569968992144415170580660312453405704804030946985036020396024811462726325554725885953345292453780448172484153615905293146099987673713021606228341763289948010904172072510417174624365642304415979834962878781518045415409171634593542357781556690613794313633819060148423089631595827187830497498351250521982310472395396760933791004309201107664820482933832786462606148500878533996647738249774549443041575427957903125836961916385380513697209325646727981103716894673069773744654104269068834840570059197055680868966509437036847429859133355316609542763679517304530701609343561871007850440562548839769752589492013263493391026729552624151349788443357121172602836206443454702109474921881688424624764081397255406836437562827744655592245525442035077867705651641912933579642571790759638898893814741878582934196169667790203976186408936584658534665433961010798488855039280548175902306200493484030370175378496395172047239086174657363096779798957662474203264277189619847843426169831693258821522623183696364363404282795731611894391334247203349887220233999653657194756396340572861223220868261417778655341522423456625450992983048062569334058190985114789091144828930272074452514579414115802988845506078912082669266204599919753154721057598535538966311924320094350038709730160702917708425143174116713814891428753285423861269209886877950763309661254521328837990836317190463199123425628391699644416

set_option maxRecDepth 100000 in
lemma seed1_loop1 :
    iterSteps (ibaStep1 [1417250542, 176]) 0 624 (mtIG, 1, 0)
      = (mtA1, 2, 0) := by decide

set_option maxRecDepth 100000 in
lemma seed1_loop2 :
    iterSteps ibaStep2 0 623 (mtA1, 2) = (mtB1, 2) := by decide


lemma seed0_iba : init_by_array (natLimbs 630827641952) = mtM0 := by
  have hk : natLimbs 630827641952 = [3762416736, 146] := by decide
  have hmax : max 624 (List.length [(3762416736 : Nat), 146]) = 624 := by decide
  simp only [init_by_array, hk, hmax, init_genrand_19650218, seed0_loop1,
    seed0_loop2]
  decide

lemma seed0_mtInit : mtInit 630827641952 = ⟨mtM0, 624⟩ := by
  simp only [mtInit]
  rw [if_neg (by decide), seed0_iba]

set_option maxRecDepth 100000 in
lemma seed0_pyShuffle : pyShuffle (⟨mtM0, 624⟩ : MTState) ([10, 20] : List Nat) = [20, 10] := by
  decide

lemma seed0_shuffle :
    stable_shuffle ([10, 20] : List Nat) ("" ++ "::day::" ++ toString (0 : Int)) = [20, 10] := by
  have hseed : seedInt ("" ++ "::day::" ++ toString (0 : Int)) = 630827641952 := by decide
  rw [stable_shuffle, if_neg (by decide), hseed, seed0_mtInit]
  exact seed0_pyShuffle

lemma pick_day0 : pick_daily_chunk ([10, 20] : List Nat) 1 0 "" = [20] := by
  simp only [pick_daily_chunk, seed0_shuffle]
  decide

lemma seed1_iba : init_by_array (natLimbs 757331494638) = mtM1 := by
  have hk : natLimbs 757331494638 = [1417250542, 176] := by decide
  have hmax : max 624 (List.length [(1417250542 : Nat), 176]) = 624 := by decide
  simp only [init_by_array, hk, hmax, init_genrand_19650218, seed1_loop1,
    seed1_loop2]
  decide

lemma seed1_mtInit : mtInit 757331494638 = ⟨mtM1, 624⟩ := by
  simp only [mtInit]
  rw [if_neg (by decide), seed1_iba]

set_option maxRecDepth 100000 in
lemma seed1_pyShuffle : pyShuffle (⟨mtM1, 624⟩ : MTState) ([10, 20] : List Nat) = [10, 20] := by
  decide

lemma seed1_shuffle :
    stable_shuffle ([10, 20] : List Nat) ("" ++ "::day::" ++ toString (1 : Int)) = [10, 20] := by
  have hseed : seedInt ("" ++ "::day::" ++ toString (1 : Int)) = 757331494638 := by decide
  rw [stable_shuffle, if_neg (by decide), hseed, seed1_mtInit]
  exact seed1_pyShuffle

lemma pick_day1 : pick_daily_chunk ([10, 20] : List Nat) 1 1 "" = [20] := by
  simp only [pick_daily_chunk, seed1_shuffle]
  decide

/-! ## Adaptive difficulty: per-quiz discrete level (`core/app_helpers.py`)

`skill_update` reads `(level, last)` from the skill profile, appends the new
outcome, truncates to the last 10, and re-levels.  The pure state-transition
core is embedded; profile I/O around it is explicit state passing.
`acc = sum(last) / len(last)` is a Python float; for windows of length
≤ 10 the comparisons with `0.8` and `0.4` agree exactly with the rational
comparisons used here (the nearest doubles preserve the order of all
fractions with denominator ≤ 10 against these thresholds). -/

/-- The level/window update of `skill_update` in `core/app_helpers.py`. -/
def skill_update (level : Int) (last : List Nat) (ok : Bool) :
    Int × List Nat :=
  let last' : List Nat := (last ++ [if ok then 1 else 0]).drop (last.length + 1 - 10)
  let acc : ℚ := if last' = [] then 0 else (last'.sum : ℚ) / (last'.length : ℚ)
  let lvl :=
    if 5 ≤ last'.length ∧ 8 / 10 ≤ acc ∧ level < 3 then level + 1
    else if 5 ≤ last'.length ∧ acc ≤ 4 / 10 ∧ 1 < level then level - 1
    else level
  (lvl, last')

/-! ## User profile and XP (`core/app_helpers.py`, `core/profile.py`)

The persisted per-user document.  Only the fields touched by the embedded
operations are modelled; `retention` is the nested dict used by `add_xp`
(daily XP counters) and the streak/milestone code. -/

/-- The `retention` sub-document of a stored user profile. -/
structure Retention where
  streak : Int
  last_day : Option String
  daily_done : List String
  freezes : Int
  freeze_used : List String
  claimed : List Int
  xp_day : Option String
  xp_gained_today : Int
deriving DecidableEq, Repr

/-- The slice of the persisted user document used by the embedded
operations. -/
structure Profile where
  xp : Int
  gems : Int
  retention : Retention
deriving DecidableEq, Repr

/-- `(not user) or str(user).startswith("Gosc-")` as in `add_xp`. -/
def isGuest (user : Option String) : Bool :=
  match user with
  | none => true
  | some u => u = "" || u.startsWith "Gosc-"

/-- `add_xp` of `core/app_helpers.py` as a state transformer over
`(session xp, persisted profile)`; returns the new session XP (the
function's return value) and the new profile.  The final profile write of
session XP models `autosave_if_dirty` saving the session for a logged-in
user (the debounce is treated as an immediate save, the best case for
durability).  `daily_cap is not None` always holds for an `Int` cap. -/
def add_xp (amount : Int) (user : Option String) (today : String)
    (prof : Profile) (xp : Int) (dailyCap : Int) : Int × Profile :=
  if amount ≤ 0 then (xp, prof)
  else if isGuest user = false ∧ 0 < dailyCap then
    let gained :=
      if prof.retention.xp_day = some today then prof.retention.xp_gained_today
      else 0
    let remaining := max 0 (dailyCap - gained)
    let allowed := min amount remaining
    let prof := { prof with retention :=
      { prof.retention with xp_day := some today,
                            xp_gained_today := gained + allowed } }
    if allowed ≤ 0 then (xp, prof)
    else (xp + allowed, { prof with xp := xp + allowed })
  else if isGuest user then (xp + amount, prof)
  else (xp + amount, { prof with xp := xp + amount })

/-! ## Game unlocking (`core/app_helpers.py`) -/

/-- `unlock_game` of `core/app_helpers.py` over the session state it
touches: gem balance and the `unlocked_games` set.  Returns
`(return value, gems, unlocked_games)`. -/
def unlock_game (game_id : String) (cost : Int) (gems : Int)
    (unlocked : List String) : Bool × Int × List String :=
  if gems < cost then (false, gems, unlocked)
  else if game_id ∈ unlocked then (true, gems, unlocked)
  else (true, gems - cost, unlocked.insert game_id)

/-! ## Streak milestone lootbox (`core/missions.py`) -/

/-- One entry of `STREAK_MILESTONES`. -/
structure MilestoneReward where
  xp : Int
  badge : String
  emoji : String
deriving DecidableEq, Repr

/-- `STREAK_MILESTONES` of `core/missions.py`. -/
def STREAK_MILESTONES : List (Int × MilestoneReward) :=
  [(3, ⟨5, "streak_3", "🔥"⟩), (7, ⟨10, "streak_7", "🏅"⟩),
   (14, ⟨20, "streak_14", "💎"⟩), (30, ⟨40, "streak_30", "👑"⟩)]

/-- The session reward state touched by `claim_streak_lootbox`. -/
structure SessionRewards where
  xp : Int
  badges : List String
  stickers : List String
deriving DecidableEq, Repr

/-- `grant_sticker` of `core/app_helpers.py` (adds the sticker if absent;
empty id is rejected). -/
def grant_sticker (sticker_id : String) (s : SessionRewards) :
    SessionRewards :=
  if sticker_id = "" then s
  else { s with stickers := s.stickers.insert sticker_id }

/-- `claim_streak_lootbox` of `core/missions.py`.  The 25% freeze drop is
`int(sha256(seed), 16) % 100 / 100.0 < 0.25`, which for integer numerators
below 100 is exactly `% 100 < 25`.  Python stores `claimed` sorted; only
membership is consumed anywhere, and a membership-preserving insert is
used here. -/
def claim_streak_lootbox (user : String) (streak : Int) (today : String)
    (sess : SessionRewards) (prof : Profile) : SessionRewards × Profile :=
  if user = "" ∨ user.startsWith "Gosc-" then (sess, prof)
  else
    match STREAK_MILESTONES.lookup streak with
    | none => (sess, prof)
    | some reward =>
        if streak ∈ prof.retention.claimed then (sess, prof)
        else
          let sess := { sess with xp := sess.xp + reward.xp }
          let sess :=
            if reward.badge = "" then sess
            else { sess with badges := sess.badges.insert reward.badge }
          let sess := grant_sticker "sticker_lootbox" sess
          let roll := sha256Nat (strBytes ("freeze_drop::" ++ user ++ "::"
            ++ toString streak ++ "::" ++ today)) % 100
          let r := prof.retention
          let r := if roll < 25 then { r with freezes := r.freezes + 1 } else r
          let r := { r with claimed := r.claimed.insert streak }
          (sess, { prof with retention := r })

/-! ## Mission-controller state (`core/mc_state.py`)

`st.session_state["mc"]` is a JSON dict with a fixed schema; it is embedded
as a structure.  A dict key that may be absent is an `Option` (or an empty
list for a map such as the `q_rewarded` guard added later by
`pages/misje.py`).  The `finish_reward` payloads built by `pages/misje.py`
are always non-empty dicts with `title`/`msg`/`emoji`, so Python's
truthiness test `if pending:` is `isSome`. -/

/-- A bonus-completion notice (`mc["bonus"]["finish_reward"]`). -/
structure FinishReward where
  title : String
  msg : String
  emoji : String
deriving DecidableEq, Repr

/-- The `mc["daily"]` sub-dict; cache payloads are opaque strings. -/
structure MCDaily where
  q : List (String × String)
  ui : List (String × String)
  toast : Option String
  rewarded : Bool
  df_used : Option String
  q_rewarded : List (String × Bool)
deriving DecidableEq, Repr

/-- The `mc["bonus"]` sub-dict. -/
structure MCBonus where
  ui : List (String × String)
  toast : Option String
  active_i : Int
  done_day : Option String
  finish_reward : Option FinishReward
deriving DecidableEq, Repr

/-- The whole `mc` dict (`MC_SCHEMA_VERSION = 1`). -/
structure MCState where
  v : Int
  today : String
  mode : String
  step : Int
  locked : Bool
  userTag : Option String
  subject : Option String
  daily : MCDaily
  bonus : MCBonus
deriving DecidableEq, Repr

/-- `mc_default` of `core/mc_state.py` with the day given explicitly (the
`today=None` default reads the wall clock). -/
def mc_default (today : String) : MCState :=
  { v := 1
    today := today
    mode := "daily"
    step := 0
    locked := false
    userTag := none
    subject := none
    daily := { q := [], ui := [], toast := none, rewarded := false,
               df_used := none, q_rewarded := [] }
    bonus := { ui := [], toast := none, active_i := 0, done_day := none,
               finish_reward := none } }

/-- `mc_migrate` of `core/mc_state.py` on schema-shaped inputs (any
non-dict input collapses to `none`; the key-by-key repair of partially
shaped dicts is the identity on inputs that already carry the schema).
The string normalisations mirror `out.get(k) or default`, and the final
day-rollover branch rebuilds from `mc_default` carrying a truthy pending
`finish_reward`. -/
def mc_migrate (existing : Option MCState) (today : String) : MCState :=
  match existing with
  | none => mc_default today
  | some cur =>
      let out : MCState :=
        { v := 1
          today := if cur.today = "" then today else cur.today
          mode := if cur.mode = "" then "daily" else cur.mode
          step := cur.step
          locked := cur.locked
          userTag := cur.userTag
          subject := cur.subject
          daily := cur.daily
          bonus := cur.bonus }
      if out.today ≠ today then
        let base := mc_default today
        match out.bonus.finish_reward with
        | some fr =>
            { base with bonus := { base.bonus with finish_reward := some fr } }
        | none => base
      else out

/-! ## Daily-mission step reward (`pages/misje.py`)

The correct-answer branch of daily question 1/3 (the same pattern is used
for step 2/3): read the `q_rewarded` guard map stored inside the session
`mc` state, pay `add_xp(2)` only when the key `f"{today}::q1"` is not yet
truthy, set the key, and advance the step cursor.  The transient feedback
widgets around it do not touch currency or the guard and are out of
scope. -/

/-- Python dict assignment `m[k] = v` on an association list. -/
def assocSet (m : List (String × Bool)) (k : String) (v : Bool) :
    List (String × Bool) :=
  if (m.lookup k).isSome then
    m.map fun p => if p.1 = k then (k, v) else p
  else m ++ [(k, v)]

/-- The reward-relevant effect of submitting a correct answer for daily
step 1/3 in `pages/misje.py`: state is `(mc, session xp, profile)`. -/
def render_daily_q1_correct (user : Option String) (today : String)
    (mc : MCState) (xp : Int) (prof : Profile) : MCState × Int × Profile :=
  let key := today ++ "::q1"
  if (mc.daily.q_rewarded.lookup key).getD false then
    ({ mc with step := 1 }, xp, prof)
  else
    let res := add_xp 2 user today prof xp 120
    ({ mc with
        daily := { mc.daily with
          q_rewarded := assocSet mc.daily.q_rewarded key true },
        step := 1 },
     res.1, res.2)

/-- A process restart: `st.session_state` is rebuilt, so `mc` is
reconstructed by `mc_migrate(None, today)` (`core/state_init.py`) and the
session XP is re-read from the persisted profile
(`core/profile.py`, `load_profile_to_session`). -/
def restartSession (prof : Profile) (today : String) : MCState × Int :=
  (mc_migrate none today, prof.xp)

/-! ## Helper lemmas -/

/-- Writing one position is, up to permutation, replacing the element
there. -/
lemma set_perm_cons_eraseIdx (l : List α) (i : Nat) (b : α)
    (h : i < l.length) : (l.set i b).Perm (b :: l.eraseIdx i) := by
  induction l generalizing i with
  | nil => simp at h
  | cons x xs ih =>
      cases i with
      | zero => simp [List.set]
      | succ i =>
          have hi : i < xs.length := by simpa using h
          exact ((ih i hi).cons x).trans (List.Perm.swap b x _)

/-- A list is, up to permutation, any of its elements in front of the
rest. -/
lemma perm_getD_cons_eraseIdx (l : List α) (i : Nat) (d : α)
    (h : i < l.length) : l.Perm (l.getD i d :: l.eraseIdx i) := by
  induction l generalizing i with
  | nil => simp at h
  | cons x xs ih =>
      cases i with
      | zero => simp
      | succ i =>
          have hi : i < xs.length := by simpa using h
          exact ((ih i hi).cons x).trans (List.Perm.swap _ x _)

/-- A one-sided swap with the head: `b :: xs.set m x` permutes `x :: xs`
when `b` is the element of `xs` at `m`. -/
lemma head_swap_perm (x : α) (xs : List α) (m : Nat) (b : α)
    (hm : m < xs.length) (hb : xs[m]? = some b) :
    (b :: xs.set m x).Perm (x :: xs) := by
  have hbd : xs.getD m x = b := by simp [List.getD, hb]
  have hA := (set_perm_cons_eraseIdx xs m x hm).cons b
  have hB := perm_getD_cons_eraseIdx xs m x hm
  rw [hbd] at hB
  exact hA.trans ((List.Perm.swap x b _).trans (hB.symm.cons x))

/-- Swapping two in-bounds positions permutes the list. -/
lemma listSwap_perm (l : List α) (i j : Nat) (hi : i < l.length)
    (hj : j < l.length) : (listSwap l i j).Perm l := by
  induction l generalizing i j with
  | nil => simp at hi
  | cons x xs ih =>
      cases i with
      | zero =>
          cases j with
          | zero => simp [listSwap]
          | succ j =>
              have hj' : j < xs.length := by simpa using hj
              cases hb : xs[j]? with
              | none => rw [List.getElem?_eq_getElem hj'] at hb; simp at hb
              | some b =>
                  have h1 : listSwap (x :: xs) 0 (j + 1) = b :: xs.set j x := by
                    simp [listSwap, hb, List.set]
                  rw [h1]
                  exact head_swap_perm x xs j b hj' hb
      | succ i =>
          cases j with
          | zero =>
              have hi' : i < xs.length := by simpa using hi
              cases ha : xs[i]? with
              | none => rw [List.getElem?_eq_getElem hi'] at ha; simp at ha
              | some a =>
                  have h1 : listSwap (x :: xs) (i + 1) 0 = a :: xs.set i x := by
                    simp [listSwap, ha, List.set]
                  rw [h1]
                  exact head_swap_perm x xs i a hi' ha
          | succ j =>
              have hi' : i < xs.length := by simpa using hi
              have hj' : j < xs.length := by simpa using hj
              cases ha : xs[i]? with
              | none => rw [List.getElem?_eq_getElem hi'] at ha; simp at ha
              | some a =>
                  cases hb : xs[j]? with
                  | none => rw [List.getElem?_eq_getElem hj'] at hb; simp at hb
                  | some b =>
                      have h1 : listSwap (x :: xs) (i + 1) (j + 1)
                          = x :: listSwap xs i j := by
                        simp [listSwap, ha, hb, List.set]
                      rw [h1]
                      exact (ih i j hi' hj').cons x

/-- `_randbelow` always returns a value `< n` for positive `n`. -/
lemma randbelowLoop_lt (n k : Nat) (hn : 0 < n) :
    ∀ (g : MTState) (fuel : Nat), (randbelowLoop n k g fuel).1 < n := by
  intro g fuel
  induction fuel generalizing g with
  | zero => simpa [randbelowLoop] using hn
  | succ fuel ih =>
      rw [randbelowLoop]
      cases hG : getrandbits g k with
      | mk r g' =>
          show (if r < n then (r, g') else randbelowLoop n k g' fuel).1 < n
          by_cases hr : r < n
          · rw [if_pos hr]; exact hr
          · rw [if_neg hr]; exact ih g'

/-- `_randbelow` always returns a value `< n` for positive `n`. -/
lemma randbelow_lt (g : MTState) (n : Nat) (hn : 0 < n) :
    (randbelow g n).1 < n := by
  rw [randbelow, if_neg (by omega)]
  exact randbelowLoop_lt n _ hn _ _

/-- The `random.shuffle` loop permutes the list. -/
lemma shuffleLoop_perm (n : Nat) :
    ∀ (g : MTState) (xs : List α), n < xs.length →
      (shuffleLoop g xs n).Perm xs := by
  induction n with
  | zero => intro g xs _; simp [shuffleLoop]
  | succ n ih =>
      intro g xs h
      rw [shuffleLoop]
      cases hR : randbelow g (n + 2) with
      | mk j g' =>
          show (shuffleLoop g' (listSwap xs (n + 1) j) n).Perm xs
          have hj : j < n + 2 := by
            have := randbelow_lt g (n + 2) (by omega)
            rw [hR] at this
            exact this
          have hswap := listSwap_perm xs (n + 1) j h (by omega)
          have hlen : (listSwap xs (n + 1) j).length = xs.length :=
            hswap.length_eq
          exact (ih g' _ (by omega)).trans hswap

/-- `random.Random.shuffle` permutes the list. -/
lemma pyShuffle_perm (g : MTState) (xs : List α) : (pyShuffle g xs).Perm xs := by
  rw [pyShuffle]
  cases xs with
  | nil => simp [shuffleLoop]
  | cons x l =>
      exact shuffleLoop_perm _ _ _ (by simp)

/-- `_stable_shuffle` permutes its input. -/
lemma stable_shuffle_perm (arr : List α) (t : String) :
    (stable_shuffle arr t).Perm arr := by
  rw [stable_shuffle]
  split
  · rename_i h
    rw [List.isEmpty_iff.1 h]
  · exact pyShuffle_perm _ _

/-- Reading every position in order reproduces the list. -/
lemma map_range_getD (l : List α) (d : α) :
    (List.range l.length).map (fun i => l.getD i d) = l := by
  induction l with
  | nil => simp
  | cons x xs ih =>
      rw [List.length_cons, List.range_succ_eq_map, List.map_cons,
        List.map_map]
      refine congrArg (x :: ·) ?_
      have hc : ((fun i => (x :: xs).getD i d) ∘ Nat.succ)
          = fun i => xs.getD i d := by
        funext i
        rfl
      rw [hc, ih]

/-- In-place overwrite of an existing key makes it look up to the new
value. -/
lemma lookup_map_set (m : List (String × Bool)) (k : String) (v : Bool)
    (hsome : (m.lookup k).isSome) :
    (m.map fun p => if p.1 = k then (k, v) else p).lookup k = some v := by
  induction m with
  | nil => simp [List.lookup] at hsome
  | cons p rest ih =>
      rcases p with ⟨a, b⟩
      rw [List.map_cons]
      by_cases hp : a = k
      · subst hp
        simp only [if_pos rfl]
        simp [List.lookup_cons]
      · have hka : (k == a) = false := by
          simp only [beq_eq_false_iff_ne, ne_eq]
          exact fun h => hp h.symm
        have hsome' : (rest.lookup k).isSome := by
          rw [List.lookup_cons] at hsome
          simpa [hka] using hsome
        simp only [if_neg hp]
        rw [List.lookup_cons]
        simpa [hka] using ih hsome'

/-- Appending a fresh key makes it look up to the appended value. -/
lemma lookup_append_single (m : List (String × Bool)) (k : String) (v : Bool)
    (hnone : m.lookup k = none) : (m ++ [(k, v)]).lookup k = some v := by
  induction m with
  | nil => simp [List.lookup]
  | cons p rest ih =>
      rcases p with ⟨a, b⟩
      have hka : (k == a) = false := by
        cases hcase : (k == a) with
        | false => rfl
        | true =>
            rw [List.lookup_cons, hcase] at hnone
            simp at hnone
      have hnone' : rest.lookup k = none := by
        rw [List.lookup_cons, hka] at hnone
        exact hnone
      rw [List.cons_append, List.lookup_cons, hka]
      exact ih hnone'

/-- Dict assignment makes the key look up to the assigned value. -/
lemma assocSet_lookup_self (m : List (String × Bool)) (k : String)
    (v : Bool) : (assocSet m k v).lookup k = some v := by
  rw [assocSet]
  split
  · exact lookup_map_set _ _ _ (by assumption)
  · exact lookup_append_single _ _ _
      (Option.not_isSome_iff_eq_none.1 (by assumption))

/-- A freshly registered profile: all-zero defaults. -/
def profZero : Profile :=
  { xp := 0, gems := 0,
    retention := { streak := 0, last_day := none, daily_done := [],
                   freezes := 0, freeze_used := [], claimed := [],
                   xp_day := none, xp_gained_today := 0 } }

/-! ## Claim theorems -/

/-- C2: from `lastCompletedDay = 2024-01-01`, `streak = 5`,
`freezeCount = 1`, no freeze-used days, `update_streak` returns: for
`today = 2024-01-02` streak 6 with event `continue`; for
`today = 2024-01-03` streak 6 with event `freeze`, `freezeCount` 0 and
missed day 2024-01-02 recorded; for `today = 2024-01-05` streak 1 with
event `reset`; for `today = 2024-01-01` the state unchanged with event
`same_day`. -/
theorem update_streak_transition_table :
    update_streak ⟨5, some ⟨2024, 1, 1⟩, 1, []⟩ ⟨2024, 1, 2⟩
      = (⟨6, some ⟨2024, 1, 2⟩, 1, []⟩, "continue", none) ∧
    update_streak ⟨5, some ⟨2024, 1, 1⟩, 1, []⟩ ⟨2024, 1, 3⟩
      = (⟨6, some ⟨2024, 1, 3⟩, 0, [⟨2024, 1, 2⟩]⟩, "freeze",
         some ⟨2024, 1, 2⟩) ∧
    update_streak ⟨5, some ⟨2024, 1, 1⟩, 1, []⟩ ⟨2024, 1, 5⟩
      = (⟨1, some ⟨2024, 1, 5⟩, 1, []⟩, "reset", none) ∧
    update_streak ⟨5, some ⟨2024, 1, 1⟩, 1, []⟩ ⟨2024, 1, 1⟩
      = (⟨5, some ⟨2024, 1, 1⟩, 1, []⟩, "same_day", none) := by
  refine ⟨?_, ?_, ?_, ?_⟩ <;> decide

/-- C3 counterexample: with `streak = 0` and `lastCompletedDay =
2024-01-02` strictly later than `today = 2024-01-01`, `update_streak`
reports `same_day` but returns streak `1`, not the current streak `0` —
the branch returns `max 1 streak`, not the streak unchanged. -/
theorem update_streak_clock_skew_cex :
    Date.toSerial ⟨2024, 1, 1⟩ < Date.toSerial ⟨2024, 1, 2⟩ ∧
    (update_streak ⟨0, some ⟨2024, 1, 2⟩, 0, []⟩ ⟨2024, 1, 1⟩).2.1
      = "same_day" ∧
    (update_streak ⟨0, some ⟨2024, 1, 2⟩, 0, []⟩ ⟨2024, 1, 1⟩).1.streak = 1 ∧
    (⟨0, some ⟨2024, 1, 2⟩, 0, []⟩ : StreakState).streak ≠ 1 := by
  refine ⟨?_, ?_, ?_, ?_⟩ <;> decide

/-- C3 (amended): for every state whose `lastCompletedDay` is present and
strictly later than `today`, `update_streak` returns event `same_day`,
streak `max 1 streak` (so unchanged only when the streak is positive),
`lastCompletedDay` moved to `today`, and freezes untouched. -/
theorem update_streak_clock_skew (s : StreakState) (today last : Date)
    (hlast : s.last_day = some last)
    (hlt : today.toSerial < last.toSerial) :
    update_streak s today =
      (⟨max 1 s.streak, some today, s.freezes, s.freeze_used_days⟩,
       "same_day", none) := by
  have hne : ¬ s.last_day = some today := by
    rw [hlast]
    intro h
    injection h with h'
    rw [h'] at hlt
    omega
  have hdiff : dateDiff today last < 0 := by
    rw [dateDiff]
    omega
  rw [update_streak, if_neg hne, hlast]
  dsimp only
  rw [if_neg (by omega), if_neg (by omega), if_neg (by omega)]

/-- Witness for the amended C3 theorem at a concrete skewed state. -/
theorem update_streak_clock_skew_witness :
    (⟨7, some ⟨2024, 1, 2⟩, 1, []⟩ : StreakState).last_day
      = some ⟨2024, 1, 2⟩ ∧
    Date.toSerial ⟨2024, 1, 1⟩ < Date.toSerial ⟨2024, 1, 2⟩ ∧
    update_streak ⟨7, some ⟨2024, 1, 2⟩, 1, []⟩ ⟨2024, 1, 1⟩
      = (⟨max 1 7, some ⟨2024, 1, 1⟩, 1, []⟩, "same_day", none) :=
  ⟨rfl, by decide,
   update_streak_clock_skew ⟨7, some ⟨2024, 1, 2⟩, 1, []⟩ ⟨2024, 1, 1⟩
     ⟨2024, 1, 2⟩ rfl (by decide)⟩

/-- C7: five straight correct outcomes from level 1 with empty history
reach level 2; five straight incorrect outcomes from level 2 reach
level 1; and an update whose rolling window (including the new outcome)
still holds fewer than 5 outcomes never changes the level. -/
theorem skill_update_level_adaptation :
    ((List.replicate 5 true).foldl
        (fun p b => skill_update p.1 p.2 b) ((1 : Int), ([] : List Nat))).1
      = 2 ∧
    ((List.replicate 5 false).foldl
        (fun p b => skill_update p.1 p.2 b) ((2 : Int), ([] : List Nat))).1
      = 1 ∧
    ∀ (level : Int) (last : List Nat) (ok : Bool),
      last.length + 1 < 5 → (skill_update level last ok).1 = level := by
  refine ⟨?_, ?_, ?_⟩
  · norm_num [List.replicate, List.foldl, skill_update, List.cons_ne_nil]
  · norm_num [List.replicate, List.foldl, skill_update, List.cons_ne_nil]
  intro level last ok h
  have hlen : ((last ++ [if ok then 1 else 0]).drop
      (last.length + 1 - 10)).length < 5 := by
    rw [List.length_drop, List.length_append]
    simp only [List.length_cons, List.length_nil]
    omega
  rw [skill_update]
  dsimp only
  rw [if_neg (by omega), if_neg (by omega)]

/-- Witness for the C7 window-too-short clause at a concrete input. -/
theorem skill_update_level_adaptation_witness :
    ([1, 1] : List Nat).length + 1 < 5 ∧ (skill_update 2 [1, 1] true).1 = 2 :=
  ⟨by decide, skill_update_level_adaptation.2.2 2 [1, 1] true (by decide)⟩

/-- C10: `unlock_game` is a guard cascade — insufficient gems return
`False` and change nothing; an already-unlocked game returns `True`
without deducting; otherwise exactly `cost` gems are deducted and the game
is added; and whenever the game is already unlocked the state never
changes. -/
theorem unlock_game_interface (game_id : String) (cost gems : Int)
    (unlocked : List String) :
    (gems < cost → unlock_game game_id cost gems unlocked
      = (false, gems, unlocked)) ∧
    (cost ≤ gems → game_id ∈ unlocked → unlock_game game_id cost gems unlocked
      = (true, gems, unlocked)) ∧
    (cost ≤ gems → game_id ∉ unlocked → unlock_game game_id cost gems unlocked
      = (true, gems - cost, unlocked.insert game_id)) ∧
    (game_id ∈ unlocked →
      (unlock_game game_id cost gems unlocked).2.1 = gems ∧
      (unlock_game game_id cost gems unlocked).2.2 = unlocked) := by
  refine ⟨?_, ?_, ?_, ?_⟩
  · intro h
    rw [unlock_game, if_pos h]
  · intro h hm
    rw [unlock_game, if_neg (by omega), if_pos hm]
  · intro h hm
    rw [unlock_game, if_neg (by omega), if_neg hm]
  · intro hm
    by_cases h : gems < cost
    · rw [unlock_game, if_pos h]
      exact ⟨rfl, rfl⟩
    · rw [unlock_game, if_neg h, if_pos hm]
      exact ⟨rfl, rfl⟩

/-- Witness for C10 at concrete gems/cost/sets. -/
theorem unlock_game_interface_witness :
    ((2 : Int) < 5 → unlock_game "saper" 5 2 [] = (false, 2, [])) ∧
    ((5 : Int) ≤ 7 → "saper" ∈ ["saper"] →
      unlock_game "saper" 5 7 ["saper"] = (true, 7, ["saper"])) ∧
    ((5 : Int) ≤ 7 → "saper" ∉ ([] : List String) →
      unlock_game "saper" 5 7 [] = (true, 2, List.insert "saper" [])) :=
  ⟨(unlock_game_interface "saper" 5 2 []).1,
   fun h hm => (unlock_game_interface "saper" 5 7 ["saper"]).2.1 h hm,
   fun h hm => (unlock_game_interface "saper" 5 7 []).2.2.1 h hm⟩

/-- C9: for a logged-in user `add_xp` keeps the per-day XP counter within
the cap, truncates a request to the remaining allowance (possibly zero,
leaving session XP unchanged), restarts the counter when the stored day
differs from today, and does not cap guests. -/
theorem add_xp_daily_cap (amount : Int) (user : Option String)
    (today : String) (prof : Profile) (xp cap : Int)
    (hinv : prof.retention.xp_day = some today →
      prof.retention.xp_gained_today ≤ cap)
    (hcap : 0 < cap) :
    (isGuest user = false → 0 < amount →
      (add_xp amount user today prof xp cap).2.retention.xp_day = some today ∧
      (add_xp amount user today prof xp cap).2.retention.xp_gained_today
        ≤ cap ∧
      (add_xp amount user today prof xp cap).1
        = xp + min amount (max 0 (cap -
            (if prof.retention.xp_day = some today then
              prof.retention.xp_gained_today else 0)))) ∧
    (isGuest user = false → 0 < amount →
      prof.retention.xp_day ≠ some today →
      (add_xp amount user today prof xp cap).2.retention.xp_gained_today
        = min amount cap) ∧
    (isGuest user = true → 0 < amount →
      add_xp amount user today prof xp cap = (xp + amount, prof)) := by
  have key : isGuest user = false → 0 < amount →
      (add_xp amount user today prof xp cap).2.retention.xp_day
        = some today ∧
      (add_xp amount user today prof xp cap).2.retention.xp_gained_today
        = (if prof.retention.xp_day = some today then
            prof.retention.xp_gained_today else 0)
          + min amount (max 0 (cap -
            (if prof.retention.xp_day = some today then
              prof.retention.xp_gained_today else 0))) ∧
      (add_xp amount user today prof xp cap).1
        = xp + min amount (max 0 (cap -
            (if prof.retention.xp_day = some today then
              prof.retention.xp_gained_today else 0))) := by
    intro hg ha
    rw [add_xp, if_neg (by omega), if_pos ⟨hg, hcap⟩]
    dsimp only
    by_cases hz : min amount (max 0 (cap -
        (if prof.retention.xp_day = some today then
          prof.retention.xp_gained_today else 0))) ≤ 0
    · rw [if_pos hz]
      exact ⟨rfl, rfl, by omega⟩
    · rw [if_neg hz]
      exact ⟨rfl, rfl, rfl⟩
  have hg0 : (if prof.retention.xp_day = some today then
      prof.retention.xp_gained_today else 0) ≤ cap := by
    split
    · exact hinv (by assumption)
    · omega
  refine ⟨?_, ?_, ?_⟩
  · intro hg ha
    obtain ⟨h1, h2, h3⟩ := key hg ha
    exact ⟨h1, by rw [h2]; omega, h3⟩
  · intro hg ha hd
    obtain ⟨h1, h2, h3⟩ := key hg ha
    rw [h2, if_neg hd]
    omega
  · intro hg ha
    rw [add_xp, if_neg (by omega), if_neg (by simp [hg]), if_pos hg]

/-- Witness for C9 at a concrete logged-in user and fresh profile. -/
theorem add_xp_daily_cap_witness :
    (profZero.retention.xp_day = some "2024-01-01" →
      profZero.retention.xp_gained_today ≤ 120) ∧
    (0 : Int) < 120 ∧
    ((isGuest (some "Ala") = false → 0 < (50 : Int) →
      (add_xp 50 (some "Ala") "2024-01-01"
        profZero 0 120).2.retention.xp_day = some "2024-01-01" ∧
      (add_xp 50 (some "Ala") "2024-01-01"
        profZero 0 120).2.retention.xp_gained_today ≤ 120 ∧
      (add_xp 50 (some "Ala") "2024-01-01" profZero 0 120).1
        = 0 + min 50 (max 0 (120 -
            (if profZero.retention.xp_day = some "2024-01-01" then
              profZero.retention.xp_gained_today else 0)))) ∧
    (isGuest (some "Ala") = false → 0 < (50 : Int) →
      profZero.retention.xp_day ≠ some "2024-01-01" →
      (add_xp 50 (some "Ala") "2024-01-01"
        profZero 0 120).2.retention.xp_gained_today = min 50 120) ∧
    (isGuest (some "Ala") = true → 0 < (50 : Int) →
      add_xp 50 (some "Ala") "2024-01-01" profZero 0 120
        = (0 + 50, profZero))) :=
  ⟨by decide, by decide,
   add_xp_daily_cap 50 (some "Ala") "2024-01-01" profZero 0 120 (by decide)
     (by decide)⟩


/-- C8: when the stored day differs from `today`, `mc_migrate` rebuilds
the state from `mc_default` for the new day (mode `daily`, step 0, empty
question cache), carrying over only a pending bonus `finish_reward`
notice unchanged. -/
theorem mc_migrate_day_rollover (cur : MCState) (today : String)
    (h0 : cur.today ≠ "") (h1 : cur.today ≠ today) :
    mc_migrate (some cur) today
      = { mc_default today with
          bonus := { (mc_default today).bonus with
            finish_reward := cur.bonus.finish_reward } } := by
  rw [mc_migrate]
  dsimp only
  rw [if_neg h0, if_pos h1]
  cases hfr : cur.bonus.finish_reward with
  | some fr => rfl
  | none => rfl

/-- Witness for C8 at a concrete old state with a pending notice. -/
theorem mc_migrate_day_rollover_witness :
    ({ mc_default "2024-01-01" with
        step := 2,
        bonus := { (mc_default "2024-01-01").bonus with
          finish_reward := some ⟨"t", "m", "e"⟩ } } : MCState).today ≠ "" ∧
    ({ mc_default "2024-01-01" with
        step := 2,
        bonus := { (mc_default "2024-01-01").bonus with
          finish_reward := some ⟨"t", "m", "e"⟩ } } : MCState).today
      ≠ "2024-01-02" ∧
    mc_migrate (some { mc_default "2024-01-01" with
        step := 2,
        bonus := { (mc_default "2024-01-01").bonus with
          finish_reward := some ⟨"t", "m", "e"⟩ } }) "2024-01-02"
      = { mc_default "2024-01-02" with
          bonus := { (mc_default "2024-01-02").bonus with
            finish_reward := some ⟨"t", "m", "e"⟩ } } :=
  ⟨by decide, by decide,
   mc_migrate_day_rollover _ "2024-01-02" (by decide) (by decide)⟩

/-- C1 (amended): within one session, submitting the correct answer for
the same `(user, day, step)` twice grants the step reward exactly once —
the second submission leaves currency, profile and mission state exactly
as after the first, because the `q_rewarded` guard key is set by the
first submission. -/
theorem daily_step_reward_idempotent_in_session (user : Option String)
    (today : String) (mc : MCState) (xp : Int) (prof : Profile) :
    render_daily_q1_correct user today
        (render_daily_q1_correct user today mc xp prof).1
        (render_daily_q1_correct user today mc xp prof).2.1
        (render_daily_q1_correct user today mc xp prof).2.2
      = render_daily_q1_correct user today mc xp prof := by
  by_cases h : (mc.daily.q_rewarded.lookup (today ++ "::q1")).getD false
      = true
  · have h1 : render_daily_q1_correct user today mc xp prof
        = ({ mc with step := 1 }, xp, prof) := by
      rw [render_daily_q1_correct, if_pos h]
    rw [h1]
    dsimp only
    rw [render_daily_q1_correct]
    dsimp only
    rw [if_pos h]
  · have h1 : render_daily_q1_correct user today mc xp prof
        = ({ mc with
              daily := { mc.daily with
                q_rewarded := assocSet mc.daily.q_rewarded
                  (today ++ "::q1") true },
              step := 1 },
           (add_xp 2 user today prof xp 120).1,
           (add_xp 2 user today prof xp 120).2) := by
      rw [render_daily_q1_correct, if_neg h]
    rw [h1]
    dsimp only
    rw [render_daily_q1_correct]
    dsimp only
    rw [if_pos (by rw [assocSet_lookup_self]; rfl)]

/-- C1 counterexample: the `q_rewarded` guard lives in the transient
session `mc` state, not the persisted profile, so after a process restart
(session rebuilt by `mc_migrate None`, XP reloaded from the profile) the
same correct answer for the same `(user, day, step)` is rewarded a second
time: currency goes 0 → 2 → 4. -/
theorem daily_step_reward_restart_cex :
    (render_daily_q1_correct (some "Ala") "2024-01-01"
        (mc_default "2024-01-01") 0 profZero).2.1 = 2 ∧
    (render_daily_q1_correct (some "Ala") "2024-01-01"
        (restartSession (render_daily_q1_correct (some "Ala") "2024-01-01"
          (mc_default "2024-01-01") 0 profZero).2.2 "2024-01-01").1
        (restartSession (render_daily_q1_correct (some "Ala") "2024-01-01"
          (mc_default "2024-01-01") 0 profZero).2.2 "2024-01-01").2
        (render_daily_q1_correct (some "Ala") "2024-01-01"
          (mc_default "2024-01-01") 0 profZero).2.2).2.1 = 4 ∧
    (4 : Int) ≠ 2 := by
  refine ⟨?_, ?_, ?_⟩ <;> decide

/-- C6: for a logged-in (non-guest) user and a milestone streak value,
claiming the streak lootbox twice grants the milestone reward exactly
once (the second call is the identity), the claimed set contains the
value after either call, a value already claimed is never granted again,
and an unclaimed milestone pays its XP and badge. -/
theorem claim_streak_lootbox_once (user : String) (streak : Int)
    (today : String) (sess : SessionRewards) (prof : Profile)
    (huser : ¬ (user = "" ∨ user.startsWith "Gosc-" = true))
    (hms : (STREAK_MILESTONES.lookup streak).isSome) :
    claim_streak_lootbox user streak today
        (claim_streak_lootbox user streak today sess prof).1
        (claim_streak_lootbox user streak today sess prof).2
      = claim_streak_lootbox user streak today sess prof ∧
    streak ∈ (claim_streak_lootbox user streak today
        sess prof).2.retention.claimed ∧
    (streak ∈ prof.retention.claimed →
      claim_streak_lootbox user streak today sess prof = (sess, prof)) ∧
    (∀ reward, STREAK_MILESTONES.lookup streak = some reward →
      streak ∉ prof.retention.claimed →
      (claim_streak_lootbox user streak today sess prof).1.xp
        = sess.xp + reward.xp ∧
      reward.badge ∈ (claim_streak_lootbox user streak today
        sess prof).1.badges) := by
  obtain ⟨reward, hr⟩ := Option.isSome_iff_exists.1 hms
  have hbadge : reward.badge ≠ "" := by
    simp only [STREAK_MILESTONES, List.lookup_cons, List.lookup_nil] at hr
    split at hr
    · cases hr; decide
    · split at hr
      · cases hr; decide
      · split at hr
        · cases hr; decide
        · split at hr
          · cases hr; decide
          · cases hr
  have hstep : ∀ (s : SessionRewards) (p : Profile),
      streak ∈ p.retention.claimed →
      claim_streak_lootbox user streak today s p = (s, p) := by
    intro s p hmem
    rw [claim_streak_lootbox, if_neg huser, hr]
    dsimp only
    rw [if_pos hmem]
  have hclaimed : streak ∈ (claim_streak_lootbox user streak today
      sess prof).2.retention.claimed := by
    by_cases hcl : streak ∈ prof.retention.claimed
    · rw [hstep sess prof hcl]
      exact hcl
    · rw [claim_streak_lootbox, if_neg huser, hr]
      dsimp only
      rw [if_neg hcl]
      exact List.mem_insert_self streak _
  refine ⟨(hstep _ _ hclaimed).trans Prod.mk.eta, hclaimed, hstep sess prof,
    ?_⟩
  intro reward' hr' hcl
  have hrr : reward' = reward := by
    rw [hr] at hr'
    injection hr'.symm
  subst hrr
  rw [claim_streak_lootbox, if_neg huser, hr]
  dsimp only
  rw [if_neg hcl]
  dsimp only [grant_sticker]
  rw [if_neg (by decide : ¬ ("sticker_lootbox" : String) = "")]
  constructor
  · by_cases hb : reward'.badge = ""
    · exact absurd hb hbadge
    · rw [if_neg hb]
  · rw [if_neg hbadge]
    dsimp only
    exact List.mem_insert_self reward'.badge _

/-- Witness for C6 at user `"Ala"`, milestone 7, zero profile. -/
theorem claim_streak_lootbox_once_witness :
    ¬ (("Ala" : String) = "" ∨ ("Ala" : String).startsWith "Gosc-"
      = true) ∧
    (STREAK_MILESTONES.lookup 7).isSome = true ∧
    (claim_streak_lootbox "Ala" 7 "2024-01-01"
        (claim_streak_lootbox "Ala" 7 "2024-01-01" ⟨0, [], []⟩ profZero).1
        (claim_streak_lootbox "Ala" 7 "2024-01-01" ⟨0, [], []⟩ profZero).2
      = claim_streak_lootbox "Ala" 7 "2024-01-01" ⟨0, [], []⟩ profZero ∧
    (7 : Int) ∈ (claim_streak_lootbox "Ala" 7 "2024-01-01"
        ⟨0, [], []⟩ profZero).2.retention.claimed ∧
    ((7 : Int) ∈ profZero.retention.claimed →
      claim_streak_lootbox "Ala" 7 "2024-01-01" ⟨0, [], []⟩ profZero
        = (⟨0, [], []⟩, profZero)) ∧
    (∀ reward, STREAK_MILESTONES.lookup 7 = some reward →
      (7 : Int) ∉ profZero.retention.claimed →
      (claim_streak_lootbox "Ala" 7 "2024-01-01"
        ⟨0, [], []⟩ profZero).1.xp = (0 : Int) + reward.xp ∧
      reward.badge ∈ (claim_streak_lootbox "Ala" 7 "2024-01-01"
        ⟨0, [], []⟩ profZero).1.badges)) :=
  ⟨by decide, by decide,
   claim_streak_lootbox_once "Ala" 7 "2024-01-01" ⟨0, [], []⟩ profZero
     (by decide) (by decide)⟩

set_option maxRecDepth 4000 in
/-- C4 counterexample: for a non-empty pool and `k = 0 ≤ 0`,
`pick_daily_chunk` does not return the empty list — the source clamps
`k = max(1, min(int(k), len(items)))`, so a single element is returned. -/
theorem pick_daily_chunk_k_zero_cex :
    (0 : Int) ≤ 0 ∧ pick_daily_chunk ([5] : List Nat) 0 0 "" = [5] ∧
    ([5] : List Nat) ≠ [] := by
  refine ⟨by decide, by decide, by decide⟩

/-- C4 (amended): `pick_daily_chunk` returns the empty list for an empty
pool; for `k ≥ len(pool)` it returns the whole pool in seed-determined
order (a permutation of the pool); and for `k ≤ 0` on a non-empty pool
`k` is clamped to 1, so a single element is returned, not the empty
list. -/
theorem pick_daily_chunk_edge_cases [Inhabited α] (items : List α)
    (k day_idx : Int) (salt : String) :
    (items = [] → pick_daily_chunk items k day_idx salt = []) ∧
    ((items.length : Int) ≤ k →
      (pick_daily_chunk items k day_idx salt).Perm items) ∧
    (k ≤ 0 → items ≠ [] →
      (pick_daily_chunk items k day_idx salt).length = 1) := by
  refine ⟨?_, ?_, ?_⟩
  · intro h
    subst h
    rw [pick_daily_chunk,
      if_pos (show ([] : List α).isEmpty = true from rfl)]
  · intro hk
    by_cases hne : items = []
    · subst hne
      rw [pick_daily_chunk,
        if_pos (show ([] : List α).isEmpty = true from rfl)]
    · have hlen : 0 < items.length := List.length_pos.2 hne
      rw [pick_daily_chunk,
        if_neg (fun hh => hne (List.isEmpty_iff.1 hh))]
      dsimp only
      have hperm := stable_shuffle_perm items
        (salt ++ "::day::" ++ toString day_idx)
      have hslen : (stable_shuffle items
          (salt ++ "::day::" ++ toString day_idx)).length = items.length :=
        hperm.length_eq
      have hkc : max 1 (min k (items.length : Int))
          = (items.length : Int) := by omega
      rw [hkc, hslen, Int.mul_emod_left]
      have hcong : ∀ i ∈ List.range items.length,
          (stable_shuffle items
            (salt ++ "::day::" ++ toString day_idx)).getD
            (((0 : Int).toNat + i) % items.length) default
          = (stable_shuffle items
              (salt ++ "::day::" ++ toString day_idx)).getD i default := by
        intro i hi
        rw [Int.toNat_zero, Nat.zero_add,
          Nat.mod_eq_of_lt (List.mem_range.1 hi)]
      rw [Int.toNat_natCast, List.map_congr_left hcong, ← hslen,
        map_range_getD]
      exact hperm
  · intro hk hne
    have hlen : 0 < items.length := List.length_pos.2 hne
    rw [pick_daily_chunk, if_neg (fun hh => hne (List.isEmpty_iff.1 hh))]
    dsimp only
    have hkc : max 1 (min k (items.length : Int)) = 1 := by omega
    rw [hkc]
    rw [List.length_map, List.length_range]
    rfl

/-- Witness for the amended C4 theorem at concrete pools. -/
theorem pick_daily_chunk_edge_cases_witness :
    pick_daily_chunk ([] : List Nat) 5 0 "x" = [] ∧
    (pick_daily_chunk ([3, 4] : List Nat) 5 0 "x").Perm [3, 4] ∧
    (pick_daily_chunk ([3, 4] : List Nat) (-1) 0 "x").length = 1 :=
  ⟨(pick_daily_chunk_edge_cases [] 5 0 "x").1 rfl,
   (pick_daily_chunk_edge_cases [3, 4] 5 0 "x").2.1 (by decide),
   (pick_daily_chunk_edge_cases [3, 4] (-1) 0 "x").2.2 (by decide)
     (by decide)⟩

/-- C5 counterexample: for the pool `[10, 20]`, `k = 1` and salt `""`,
the days `0 .. ceil(2/1) - 1 = 0 .. 1` both pick `20`: the element `10`
is never visited although `20` already repeats, because the shuffle is
reseeded with the day index (`f"{salt}::day::{day_idx}"`) instead of
rotating chunks of one fixed shuffle. -/
theorem pick_daily_chunk_rotation_cex :
    0 < (1 : Int) ∧ (1 : Int) ≤ (([10, 20] : List Nat).length : Int) ∧
    pick_daily_chunk ([10, 20] : List Nat) 1 0 ""
      ++ pick_daily_chunk ([10, 20] : List Nat) 1 1 "" = [20, 20] ∧
    (10 : Nat) ∈ ([10, 20] : List Nat) ∧ (10 : Nat) ∉ ([20, 20] : List Nat)
    := by
  refine ⟨by decide, by decide, ?_, by decide, by decide⟩
  rw [pick_day0, pick_day1]
  rfl

/-- C5 (amended): within a single day the chunk consists of `k` pairwise
distinct pool elements (positions of one permutation of the pool), but
across days `0 .. ceil(len/k) - 1` the concatenation need not visit every
element before one repeats, because each day reseeds the shuffle. -/
theorem pick_daily_chunk_day_nodup [Inhabited α] (items : List α)
    (k day_idx : Int) (salt : String) (hnd : items.Nodup)
    (hk0 : 0 < k) (hk : k ≤ (items.length : Int)) :
    (pick_daily_chunk items k day_idx salt).Nodup ∧
    ∀ x ∈ pick_daily_chunk items k day_idx salt, x ∈ items := by
  have hne : items ≠ [] := by
    intro h
    subst h
    simp at hk
    omega
  have hlen : 0 < items.length := List.length_pos.2 hne
  have hperm := stable_shuffle_perm items
    (salt ++ "::day::" ++ toString day_idx)
  have hslen : (stable_shuffle items
      (salt ++ "::day::" ++ toString day_idx)).length = items.length :=
    hperm.length_eq
  have hsnd : (stable_shuffle items
      (salt ++ "::day::" ++ toString day_idx)).Nodup :=
    hperm.nodup_iff.2 hnd
  rw [pick_daily_chunk, if_neg (fun hh => hne (List.isEmpty_iff.1 hh))]
  dsimp only
  have hkc : max 1 (min k (items.length : Int)) = k := by omega
  rw [hkc, hslen]
  set start : Int := day_idx * k % (items.length : Int) with hstart
  have hs0 : 0 ≤ start := Int.emod_nonneg _ (by omega)
  have hslt : start < (items.length : Int) := Int.emod_lt_of_pos _ (by omega)
  have hidx : ∀ i : Nat, (i : Int) < k →
      (start.toNat + i) % items.length < items.length :=
    fun i _ => Nat.mod_lt _ hlen
  have hinj : ∀ i ∈ List.range k.toNat, ∀ j ∈ List.range k.toNat,
      (stable_shuffle items
        (salt ++ "::day::" ++ toString day_idx)).getD
        ((start.toNat + i) % items.length) default
      = (stable_shuffle items
          (salt ++ "::day::" ++ toString day_idx)).getD
          ((start.toNat + j) % items.length) default → i = j := by
    intro i hi j hj hfij
    have hik : i < k.toNat := List.mem_range.1 hi
    have hjk : j < k.toNat := List.mem_range.1 hj
    have hiL : i < items.length := by omega
    have hjL : j < items.length := by omega
    have hi' : (start.toNat + i) % items.length
        < (stable_shuffle items
          (salt ++ "::day::" ++ toString day_idx)).length := by
      rw [hslen]
      exact Nat.mod_lt _ hlen
    have hj' : (start.toNat + j) % items.length
        < (stable_shuffle items
          (salt ++ "::day::" ++ toString day_idx)).length := by
      rw [hslen]
      exact Nat.mod_lt _ hlen
    rw [List.getD_eq_getElem?_getD, List.getD_eq_getElem?_getD,
      List.getElem?_eq_getElem hi', List.getElem?_eq_getElem hj'] at hfij
    have heq := (List.Nodup.getElem_inj_iff hsnd).1 hfij
    have hmod : (start.toNat + i) % items.length
        = (start.toNat + j) % items.length := heq
    have hmi : i % items.length = j % items.length :=
      Nat.ModEq.add_left_cancel' start.toNat hmod
    rw [Nat.mod_eq_of_lt hiL, Nat.mod_eq_of_lt hjL] at hmi
    exact hmi
  constructor
  · exact List.Nodup.map_on hinj (List.nodup_range _)
  · intro x hx
    obtain ⟨i, hi, rfl⟩ := List.mem_map.1 hx
    have hi' : (start.toNat + i) % items.length
        < (stable_shuffle items
          (salt ++ "::day::" ++ toString day_idx)).length := by
      rw [hslen]
      exact Nat.mod_lt _ hlen
    rw [List.getD_eq_getElem?_getD, List.getElem?_eq_getElem hi']
    exact hperm.mem_iff.1 (List.getElem_mem hi')

/-- Witness for the amended C5 theorem at a concrete pool. -/
theorem pick_daily_chunk_day_nodup_witness :
    ([3, 4] : List Nat).Nodup ∧ 0 < (1 : Int) ∧
    (1 : Int) ≤ (([3, 4] : List Nat).length : Int) ∧
    ((pick_daily_chunk ([3, 4] : List Nat) 1 7 "s").Nodup ∧
      ∀ x ∈ pick_daily_chunk ([3, 4] : List Nat) 1 7 "s",
        x ∈ ([3, 4] : List Nat)) :=
  ⟨by decide, by decide, by decide,
   pick_daily_chunk_day_nodup [3, 4] 1 7 "s" (by decide) (by decide)
     (by decide)⟩

end KopalniaWiedzy
